import Mathlib

/-!
Verification development for the overlay (UI component) lifecycle and
positioning engine of a web mapping library, together with the text-marker
content setter.  JavaScript numbers are embedded as rationals, DOM style
values as strings or options, and the mutable instance and document state as
explicit record-passing.  Each definition follows the corresponding source
function; external value types that the repository keeps outside the
specified core (points, sizes, string helpers) are modelled from the spec.
-/

set_option autoImplicit false

/-- Modelled from the spec: 2D pixel/view point value object (geo Point),
with componentwise add, subtract and round-to-nearest-integer. -/
structure Pt where
  x : ℚ
  y : ℚ
deriving DecidableEq, Repr

/-- Componentwise addition of two points (Point.prototype.add with a point). -/
def Pt.add (p q : Pt) : Pt := { x := p.x + q.x, y := p.y + q.y }

/-- Addition of separate x and y deltas (Point.prototype.add with numbers). -/
def Pt.add2 (p : Pt) (dx dy : ℚ) : Pt := { x := p.x + dx, y := p.y + dy }

/-- Componentwise subtraction. -/
def Pt.sub (p q : Pt) : Pt := { x := p.x - q.x, y := p.y - q.y }

/-- Modelled from the spec: JavaScript Math.round, rounding to the nearest
integer with ties toward positive infinity, computed by a floor division so
that it evaluates inside the kernel.  jsRound_eq_round below identifies it
with the Mathlib round. -/
def jsRound (q : ℚ) : ℤ := (2 * q.num + (q.den : ℤ)).fdiv (2 * (q.den : ℤ))

/-- Modelled from the spec: rounding each coordinate to the nearest integer
(Point.prototype._round). -/
def Pt.round2 (p : Pt) : Pt := { x := (jsRound p.x : ℤ), y := (jsRound p.y : ℤ) }

/-- Modelled from the spec: pixel size value object with width and height. -/
structure Sz where
  width : ℚ
  height : ℚ
deriving DecidableEq, Repr

/-- Size.prototype.copy: a fresh size with the same dimensions. -/
def Sz.copy (s : Sz) : Sz := { width := s.width, height := s.height }

/-- A geographic coordinate; the optional z component carries altitude. -/
structure Coordinate where
  x : ℚ := 0
  y : ℚ := 0
  z : Option ℚ := none
deriving DecidableEq, Repr

/-- The sign helper from core/util: 1, -1 or 0. -/
def jsSign (q : ℚ) : ℚ := if 0 < q then 1 else if q < 0 then -1 else 0

/-- JavaScript parseInt on a (finite, numeric) value: truncation toward zero. -/
def jsParseInt (q : ℚ) : ℚ := ((q.num.tdiv q.den : ℤ) : ℚ)

/-- Rendering of a JavaScript number into a CSS string; integral values print
without a fractional part, which is the only case the theorems evaluate. -/
def jsNumStr (q : ℚ) : String :=
  if q.den = 1 then toString q.num else toString q

/-- The option set of UIComponent, merged from the class defaults. -/
structure Options where
  eventsPropagation : Bool := false
  eventsToStop : Option String := none
  dx : ℚ := 0
  dy : ℚ := 0
  autoPan : Bool := false
  autoPanDuration : ℕ := 600
  single : Bool := true
  animation : Option String := some "scale"
  animationOnHide : Bool := false
  animationDuration : ℕ := 500
  pitchWithMap : Bool := false
  rotateWithMap : Bool := false
  visible : Bool := true
  roundPoint : Bool := false
  collision : Bool := false
deriving DecidableEq, Repr

/-- Whitespace recognizer used by the trim helper. -/
def isWhite (c : Char) : Bool := c = ' ' || c = '\t' || c = '\n' || c = '\r'

/-- Modelled from the spec: the trim helper from core/util/strings removes
leading and trailing whitespace. -/
def jsTrim (s : String) : String :=
  String.mk (((s.data.dropWhile isWhite).reverse.dropWhile isWhite).reverse)

/-- Splitting a character list at commas, matching the JavaScript split
method on a one-character separator. -/
def splitCommaChars : List Char → List (List Char)
  | [] => [[]]
  | c :: cs =>
    let r := splitCommaChars cs
    if c = ',' then [] :: r
    else
      match r with
      | [] => [[c]]
      | h :: t => (c :: h) :: t

/-- Modelled from the spec: the JavaScript string split on a comma. -/
def jsSplitComma (s : String) : List String :=
  (splitCommaChars s.data).map String.mk

/-- The animation option is split on commas when truthy; a missing or empty
string yields no tokens. -/
def splitAnimations (a : Option String) : List String :=
  match a with
  | none => []
  | some s => if s = "" then [] else jsSplitComma s

/-- One step of the token loop in _getAnimation: recognize fade and scale,
ignore anything else. -/
def animFlagsStep (acc : Bool × Bool) (t : String) : Bool × Bool :=
  let trimed := jsTrim t
  if trimed = "fade" then (true, acc.2)
  else if trimed = "scale" then (acc.1, true)
  else acc

/-- The platform transform style property name (dom util TRANSFORM). -/
def TRANSFORMNAME : String := "transform"

/-- Result record of _getAnimation. -/
structure AnimResult where
  fade : Bool
  scale : Bool
  transition : Option String
  ok : Bool
deriving DecidableEq, Repr

/-- The animation resolver _getAnimation of UIComponent. -/
def getAnimationRes (opts : Options) : AnimResult :=
  let animations := splitAnimations opts.animation
  let flags := List.foldl animFlagsStep (false, false) animations
  let t1 : Option String :=
    if flags.1 then some ("opacity " ++ toString opts.animationDuration ++ "ms") else none
  let t2 : Option String :=
    if flags.2 then
      some ((match t1 with | some s => s ++ "," | none => "") ++
        TRANSFORMNAME ++ " " ++ toString opts.animationDuration ++ "ms")
    else t1
  { fade := flags.1, scale := flags.2, transition := t2, ok := t2.isSome }

/-- The map collaborator: projection functions, viewport pose and geometry.
Function-valued fields stand for the externally supplied projection math. -/
structure MapModel where
  coordToViewPoint : Option Coordinate → ℚ → Pt
  altitudeToPoint : ℚ → ℚ → ℚ
  resolution : ℚ := 1
  bearing : ℚ := 0
  pitch : ℚ := 0
  isMovingFlag : Bool := false
  width : ℚ := 0
  height : ℚ := 0
  viewPointToContainerPoint : Pt → Pt
  viewPointToPrj : Pt → Pt
  containerPointToPoint : Pt → Pt
  prjToPoint : Pt → Pt
  pointToPrj : Pt → Pt
  prjCenter : Pt

/-- The owner collaborator (a geometry, or the map itself): a center
coordinate, an optional getAltitude capability, and whether a map is
reachable through it. -/
structure Owner where
  center : Coordinate := {}
  hasGetAltitude : Bool := false
  altitudeVal : ℚ := 0
  onMap : Bool := true

/-- Altitude contributed by the owner: getAltitude() when the capability is
present (a nullish result already coerced to 0), else 0. -/
def ownerAltitudeOf (owner : Option Owner) : ℚ :=
  match owner with
  | some o => if o.hasGetAltitude then o.altitudeVal else 0
  | none => 0

/-- The helper _meterToPoint: altitudeToPoint at the current resolution,
multiplied by the sign of the altitude. -/
def meterToPoint (m : MapModel) (altitude : ℚ) : ℚ :=
  m.altitudeToPoint altitude m.resolution * jsSign altitude

/-- The method _getViewPoint: resolve altitude (explicit z first, else owner
altitude, else 0), convert through the map projection, then add the
configured dx and dy pixel offsets. -/
def getViewPoint (opts : Options) (coordinate : Option Coordinate)
    (owner : Option Owner) (m : MapModel) : Pt :=
  let altitude : ℚ :=
    match coordinate with
    | some c =>
      match c.z with
      | some z => z
      | none => ownerAltitudeOf owner
    | none => ownerAltitudeOf owner
  let alt := meterToPoint m altitude
  Pt.add2 (m.coordToViewPoint coordinate alt) opts.dx opts.dy

/-- The method _roundPoint: round only when the roundPoint option is set. -/
def roundPointIf (opts : Options) (p : Pt) : Pt :=
  if opts.roundPoint then p.round2 else p

/-- The method getPosition.  The getOffset hook of a subclass is modelled as
an optional capability that may itself return no offset; the view point and
the content offset are each passed through _roundPoint and then added.  The
offset goes through _roundPoint before the null guard on it, and _roundPoint
calls _round() on its argument whenever the roundPoint option is set, so a
hook that returns a nullish offset then raises a TypeError, reported as the
error case; with roundPoint unset the nullish offset survives _roundPoint
and the null guard skips the addition. -/
def getPosition (opts : Options) (coordinate : Option Coordinate)
    (owner : Option Owner) (getOffsetHook : Option (Option Pt))
    (m : Option MapModel) : Except Unit (Option Pt) :=
  match m with
  | none => Except.ok none
  | some mm =>
    let p := roundPointIf opts (getViewPoint opts coordinate owner mm)
    match getOffsetHook with
    | none => Except.ok (some p)
    | some off =>
      match off with
      | none => if opts.roundPoint then Except.error () else Except.ok (some p)
      | some o0 => Except.ok (some (p.add (roundPointIf opts o0)))

/-- The value inside the ok result of getPosition in the configurations
where it cannot throw; used to instantiate runs of show that stay on the
non-throwing path. -/
def getPositionOk (opts : Options) (coordinate : Option Coordinate)
    (owner : Option Owner) (getOffsetHook : Option (Option Pt))
    (mm : MapModel) : Option Pt :=
  let p := roundPointIf opts (getViewPoint opts coordinate owner mm)
  match getOffsetHook with
  | none => some p
  | some none => some p
  | some (some o0) => some (p.add (roundPointIf opts o0))

/-- The method _toCSSTranslate: a 3D translate with optional rotateX and
rotateZ terms on a 3D-capable platform, otherwise a plain 2D translate. -/
def toCSSTranslate (opts : Options) (any3d : Bool) (m : Option MapModel)
    (p : Option Pt) : String :=
  match p with
  | none => ""
  | some p =>
    if any3d then
      let bearing : ℚ := match m with | some mm => mm.bearing | none => 0
      let pitch : ℚ := match m with | some mm => mm.pitch | none => 0
      let r1 := if opts.pitchWithMap && (pitch != 0) then
          " rotateX(" ++ toString (jsRound pitch) ++ "deg)" else ""
      let r2 := if opts.rotateWithMap && (bearing != 0) then
          " rotateZ(" ++ toString (jsRound (-bearing)) ++ "deg)" else ""
      "translate3d(" ++ jsNumStr p.x ++ "px," ++ jsNumStr p.y ++ "px, 0px)" ++ (r1 ++ r2)
    else
      "translate(" ++ jsNumStr p.x ++ "px," ++ jsNumStr p.y ++ "px)"

/-- The pan-delta computation inside _autoPan: horizontal and vertical
shifts keeping the measured dom box inside the container with margin 50. -/
def autoPanLeftTop (mapW mapH : ℚ) (cp0 cp : Pt) (domW domH : ℚ) : ℚ × ℚ :=
  let margin : ℚ := 50
  let left : ℚ :=
    if cp.x < 0 then -cp.x + margin
    else if cp.x + domW > mapW then -((cp.x + domW) - mapW) - margin
    else 0
  let top : ℚ :=
    if cp.y - domH < 0 then |cp.y - domH| + margin
    else if cp.y + domH > mapH then (mapH - (cp.y + domH)) - margin
    else 0
  let left : ℚ := if domW ≥ mapW then mapW / 2 - cp0.x else left
  (left, top)

/-- Identity of the two overlay instances sharing a map in the lifecycle
model (two instances of the same UIComponent class). -/
inductive Who where
  | ua
  | ub
deriving DecidableEq, Repr

/-- Observable notifications and document mutations, in program order. -/
inductive Ev where
  | showstart (i : Who)
  | showend (i : Who)
  | hideEv (i : Who)
  | addEv (i : Who)
  | removeEv (i : Who)
  | removeUI (i : Who)
  | collides (i : Who)
  | domRemoved (d : ℕ)
  | domAttached (d : ℕ)
deriving DecidableEq, Repr

/-- Intrinsic properties of the element a buildOn hook produces. -/
structure DomSpec where
  rectW : ℚ := 0
  rectH : ℚ := 0
  clientW : ℚ := 0
  clientH : ℚ := 0
  hasBoundingRect : Bool := true

/-- A document element: its style fields, whether it has a parent in the ui
container, and the back reference _uiComponent set for singleton overlays. -/
structure Dom where
  spec : DomSpec := {}
  attached : Bool := false
  display : String := ""
  opacity : Option ℚ := none
  transformS : Option String := none
  transitionS : Option String := none
  positionS : Option String := none
  uiComponentTag : Option Who := none
  eventsPropagationProp : Option Bool := none

/-- The per-instance state of a UIComponent, together with the outcome of
its subclass hooks (buildOn, getOffset) as capability fields. -/
structure UI where
  opts : Options := {}
  owner : Option Owner := none
  coordinate : Option Coordinate := none
  domRef : Option ℕ := none
  mapEventsOn : Option Bool := none
  size : Option Sz := none
  resizeObserver : Bool := false
  domContentRect : Option Sz := none
  pos : Option Pt := none
  showBySymbolChange : Bool := false
  hideDom : Bool := false
  buildOnResult : Option DomSpec := none
  getOffsetHook : Option (Option Pt) := none

/-- The whole mutable world: the map collaborator, platform capabilities,
two overlay instances of the class, the document store, the singleton slot
of the class on the map, pending hide timers, and the pan-animation target
last requested from the map. -/
structure World where
  map : MapModel
  any3d : Bool := true
  resizeObserverSupport : Bool := false
  a : UI := {}
  b : UI := {}
  doms : List (ℕ × Dom) := []
  nextDom : ℕ := 0
  slot : Option ℕ := none
  timers : List Who := []
  panTarget : Option Pt := none

def World.ui (w : World) : Who → UI
  | Who.ua => w.a
  | Who.ub => w.b

def World.setUI (w : World) (who : Who) (u : UI) : World :=
  match who with
  | Who.ua => { w with a := u }
  | Who.ub => { w with b := u }

def World.getDom (w : World) (d : ℕ) : Option Dom :=
  w.doms.lookup d

def World.updDom (w : World) (d : ℕ) (f : Dom → Dom) : World :=
  { w with doms := w.doms.map (fun kv => if kv.1 == d then (kv.1, f kv.2) else kv) }

def World.allocDom (w : World) (spec : DomSpec) : ℕ × World :=
  (w.nextDom,
   { w with doms := (w.nextDom, { spec := spec }) :: w.doms, nextDom := w.nextDom + 1 })

def World.setSlot (w : World) (s : Option ℕ) : World := { w with slot := s }

/-- The method getMap: none when there is no owner or the owner is not on a
map; otherwise the shared map collaborator. -/
def getMapOf (w : World) (who : Who) : Option MapModel :=
  match (w.ui who).owner with
  | none => none
  | some o => if o.onMap then some w.map else none

/-- The method isVisible: the visible option, an owning map, an element with
a parent node, and a display style other than none. -/
def isVisibleUI (w : World) (who : Who) : Bool :=
  let ui := w.ui who
  if !ui.opts.visible then false
  else
    match ui.domRef with
    | none => false
    | some d =>
      (getMapOf w who).isSome &&
        (match w.getDom d with
         | some dom => dom.attached && (dom.display != "none")
         | none => false)

/-- The method _switchMapEvents: a no-op without a map, else it records the
subscription state and registers or removes the map handlers. -/
def switchMapEventsRun (w : World) (who : Who) (toOn : Bool) : World :=
  match getMapOf w who with
  | none => w
  | some _ => w.setUI who { w.ui who with mapEventsOn := some toOn }

/-- The method _collides: registration with the collision queue of the map,
a no-op without a map. -/
def collidesRun (w : World) (who : Who) : World × List Ev :=
  match getMapOf w who with
  | none => (w, [])
  | some _ => (w, [Ev.collides who])

/-- The method _removePrevDOM.  For a singleton caller it evicts whatever
element occupies the class slot of the map: fires hide on the previous
occupant when that occupant is a different visible instance, detaches the
element, turns off the map subscriptions of the occupant unless the caller
has hideDom, clears the slot, and always clears the callers own element
reference.  A non-singleton caller only detaches its own element.  Any
resize observation is disconnected at the end. -/
def removePrevDOMRun (w : World) (who : Who) : World × List Ev :=
  -- the onDomRemove hook is not defined in the base class
  let caller := w.ui who
  let step1 : World × List Ev :=
    if caller.opts.single then
      let step2 : World × List Ev :=
        match w.slot with
        | some d =>
          -- off eventsToStop listeners: no modelled state
          let occ : Option Who :=
            match w.getDom d with
            | some dom => dom.uiComponentTag
            | none => none
          let evsHide : List Ev :=
            match occ with
            | some o => if (o != who) && isVisibleUI w o then [Ev.hideEv o] else []
            | none => []
          let w2 := w.updDom d (fun dom => { dom with attached := false })
          let w2 :=
            match occ with
            | some o => if caller.hideDom then w2 else switchMapEventsRun w2 o false
            | none => w2
          (w2.setSlot none, evsHide ++ [Ev.domRemoved d])
        | none => (w, [])
      (step2.1.setUI who { step2.1.ui who with domRef := none }, step2.2)
    else
      match caller.domRef with
      | some d =>
        let w2 := w.updDom d (fun dom => { dom with attached := false })
        (w2.setUI who { w2.ui who with domRef := none }, [Ev.domRemoved d])
      | none => (w, [])
  let w1 := step1.1
  let w1 :=
    if (w1.ui who).resizeObserver then
      w1.setUI who { w1.ui who with resizeObserver := false, domContentRect := none }
    else w1
  (w1, step1.2)

/-- The method _observerDomSize: bind a resize observation when an element
exists, the platform supports it, and none is bound yet. -/
def observerDomSizeRun (w : World) (who : Who) (d : Option ℕ) : World :=
  match d with
  | none => w
  | some _ =>
    if w.resizeObserverSupport && !(w.ui who).resizeObserver then
      w.setUI who { w.ui who with resizeObserver := true }
    else w

/-- The method _measureSize: style the element for measuring, append it to
the container, read its box (bounding rect preferred, client size as the
fallback), cache the size, then hide the element again. -/
def measureSizeRun (w : World) (who : Who) (d : ℕ) : World × List Ev :=
  let w := w.updDom d (fun dom => { dom with positionS := some "absolute" })
  let w := w.updDom d (fun dom => { dom with display := "" })
  let w := w.updDom d (fun dom => { dom with attached := true })
  let size : Sz :=
    match w.getDom d with
    | some dom =>
      if dom.spec.hasBoundingRect then { width := dom.spec.rectW, height := dom.spec.rectH }
      else { width := dom.spec.clientW, height := dom.spec.clientH }
    | none => { width := 0, height := 0 }
  let w := w.setUI who { w.ui who with size := some size }
  let w := w.updDom d (fun dom => { dom with display := "none" })
  (w, [Ev.domAttached d])

/-- The method _setPosition: reset the transition, compute the position (a
TypeError from getPosition propagates, reported in the second component,
after the transition reset), remember it, and write the transform with
scale one. -/
def setPositionRun (w : World) (who : Who) : World × Bool :=
  let ui := w.ui who
  match ui.domRef with
  | none => (w, false)
  | some d =>
    let w := w.updDom d (fun dom => { dom with transitionS := none })
    match getPosition ui.opts ui.coordinate ui.owner ui.getOffsetHook (getMapOf w who) with
    | Except.error _ => (w, true)
    | Except.ok p =>
      let w := w.setUI who { w.ui who with pos := p }
      let ts := toCSSTranslate ui.opts w.any3d (getMapOf w who) p ++ " scale(1)"
      (w.updDom d (fun dom => { dom with transformS := some ts }), false)

/-- The method _autoPan.  A no-op while the map is moving; otherwise it
derives the pan deltas from the rounded view point, the container point with
the content offset applied, and the client box of the element, and when a
delta is nonzero requests a pan animation toward the recomputed projection
target.  Calling the getOffset hook when it is absent, or adding a nullish
offset, throws, reported in the second component. -/
def autoPanRun (w : World) (who : Who) : World × Bool :=
  let ui := w.ui who
  match getMapOf w who with
  | none => (w, false)
  | some m =>
    if m.isMovingFlag then (w, false)
    else
      match ui.getOffsetHook with
      | some (some offset) =>
        let point := (getViewPoint ui.opts ui.coordinate ui.owner m).round2
        let cp0 := m.viewPointToContainerPoint point
        let cp := cp0.add offset
        let prjCoord := m.viewPointToPrj point
        let domW : ℚ :=
          match ui.domRef with
          | some d => match w.getDom d with
                      | some dom => jsParseInt dom.spec.clientW
                      | none => 0
          | none => 0
        let domH : ℚ :=
          match ui.domRef with
          | some d => match w.getDom d with
                      | some dom => jsParseInt dom.spec.clientH
                      | none => 0
          | none => 0
        let lt := autoPanLeftTop m.width m.height cp0 cp domW domH
        if (lt.2 != 0) || (lt.1 != 0) then
          let ncp := Pt.add2 cp0 lt.1 lt.2
          let t := (m.containerPointToPoint ncp).sub (m.prjToPoint m.prjCenter)
          let target := m.pointToPrj ((m.prjToPoint prjCoord).sub t)
          ({ w with panTarget := some target }, false)
        else (w, false)
      | _ => (w, true)

/-- Lines 239 to 286 of show: derive the animation plan, suppress it when an
element was already visible, write the animation start styling, reveal the
element, run auto-pan when configured, then write the transition and the
animation end styling.  The Bool result reports a propagated throw from the
auto-pan step. -/
def showStylesRun (w : World) (who : Who) (d : ℕ) (visible : Bool) : World × Bool :=
  let anim := getAnimationRes (w.ui who).opts
  let ok := if visible then false else anim.ok
  let w := if ok && anim.fade then w.updDom d (fun dom => { dom with opacity := some 0 }) else w
  let w :=
    if ok && anim.scale then
      -- the getTransformOrigin hook is not defined in the base class
      let ts := toCSSTranslate (w.ui who).opts w.any3d (getMapOf w who) (w.ui who).pos
        ++ " scale(0)"
      w.updDom d (fun dom => { dom with transformS := some ts })
    else w
  -- isSupportZoomFilter is false in the base class, so the element is shown
  let w := w.updDom d (fun dom => { dom with display := "" })
  -- eventsToStop listener binding carries no modelled state
  let panStep : World × Bool := if (w.ui who).opts.autoPan then autoPanRun w who else (w, false)
  let w := panStep.1
  if panStep.2 then (w, true)
  else
    let w :=
      if ok && anim.transition.isSome then
        let w := w.updDom d (fun dom => { dom with transitionS := anim.transition })
        let w := if anim.fade then w.updDom d (fun dom => { dom with opacity := some 1 }) else w
        let w :=
          if anim.scale then
            let ts := toCSSTranslate (w.ui who).opts w.any3d (getMapOf w who) (w.ui who).pos
              ++ " scale(1)"
            w.updDom d (fun dom => { dom with transformS := some ts })
          else w
        w
      else w
    (w, false)

/-- Lines 182 to 205 of show: force the visible option, resolve the target
coordinate, record whether an element was already visible, fire showstart
unless the call is a symbol-driven reshow, store the coordinate, evict the
previous singleton occupant, and ensure map subscriptions are active.  The
Bool result is the prior visibility used for animation suppression. -/
def showPhase1 (w : World) (who : Who) (coordArg : Option Coordinate) :
    World × List Ev × Bool :=
  let w := w.setUI who { w.ui who with opts := { (w.ui who).opts with visible := true } }
  let ui := w.ui who
  let coordinate : Option Coordinate :=
    match coordArg with
    | some c => some c
    | none =>
      match ui.coordinate with
      | some c => some c
      | none => Option.map Owner.center ui.owner
  let visible := isVisibleUI w who
  let evs1 : List Ev := if ui.showBySymbolChange then [] else [Ev.showstart who]
  let w := w.setUI who { w.ui who with coordinate := coordinate }
  let rp := removePrevDOMRun w who
  let w := rp.1
  -- if (!this._mapEventsOn): truthy exactly when the flag is present and true
  let w :=
    if (w.ui who).mapEventsOn = some true then w else switchMapEventsRun w who true
  (w, evs1 ++ rp.2, visible)

/-- Lines 206 to 290 of show for a successful buildOn: allocate and tag the
element, observe its size, measure it, register the singleton slot, position
it (a _setPosition throw aborts the run before the element is appended for
display), attach it, apply the animation styling (including auto-pan), and
emit showend plus collision registration when nothing threw. -/
def showPhase2 (w : World) (who : Who) (spec : DomSpec) (visible : Bool) :
    World × List Ev × Bool :=
  let alloc := w.allocDom spec
  let d := alloc.1
  let w := alloc.2
  let w := w.setUI who { w.ui who with domRef := some d }
  let w := w.updDom d (fun dom =>
    { dom with eventsPropagationProp := some (w.ui who).opts.eventsPropagation })
  let w := observerDomSizeRun w who (some d)
  -- the source emptiness check on the element would fire showend and
  -- register collision here, but it is unreachable past the write above
  let ms := measureSizeRun w who d
  let w := ms.1
  let evs3 := ms.2
  let w :=
    if (w.ui who).opts.single then
      (w.updDom d (fun dom => { dom with uiComponentTag := some who })).setSlot (some d)
    else w
  let sp := setPositionRun w who
  if sp.2 then (sp.1, evs3, true)
  else
    let w := sp.1
    let w := w.updDom d (fun dom => { dom with transitionS := none })
    let w := w.updDom d (fun dom => { dom with attached := true })
    let evs4 : List Ev := [Ev.domAttached d]
    let st := showStylesRun w who d visible
    let w := st.1
    if st.2 then (w, evs3 ++ evs4, true)
    else
      let evs5 : List Ev := if (w.ui who).showBySymbolChange then [] else [Ev.showend who]
      let co := collidesRun w who
      (co.1, evs3 ++ evs4 ++ evs5 ++ co.2, false)

/-- The method show.  The Bool result reports an uncaught TypeError: when
buildOn produces no element the source writes a property on the missing
element before its own emptiness check, so the graceful branch below the
write is unreachable. -/
def showRun (w : World) (who : Who) (coordArg : Option Coordinate) : World × List Ev × Bool :=
  match getMapOf w who with
  | none => (w, [], false)
  | some _ =>
    let p1 := showPhase1 w who coordArg
    let w := p1.1
    let evs1 := p1.2.1
    let visible := p1.2.2
    match (w.ui who).buildOnResult with
    | none =>
      -- this.__uiDOM becomes undefined; the following property write throws
      let w := w.setUI who { w.ui who with domRef := none }
      (w, evs1, true)
    | some spec =>
      let p2 := showPhase2 w who spec visible
      (p2.1, evs1 ++ p2.2.1, p2.2.2)

/-- The method hide: a no-op without an element; otherwise clear the visible
option, either hide and notify synchronously or defer both on a timer when a
hide animation applies, write the hidden end styling, synchronously turn the
map subscriptions off, and deregister from the collision pass. -/
def hideRun (w : World) (who : Who) : World × List Ev :=
  match (w.ui who).domRef with
  | none => (w, [])
  | some d =>
    -- the _onDomMouseout hook is not defined in the base class
    let w := w.setUI who { w.ui who with opts := { (w.ui who).opts with visible := false } }
    let anim := getAnimationRes (w.ui who).opts
    let ok := if (w.ui who).opts.animationOnHide then anim.ok else false
    let sync : World × List Ev :=
      if !ok then
        (w.updDom d (fun dom => { dom with display := "none" }), [Ev.hideEv who])
      else
        -- the display change and the hide notification run on a timer after
        -- animationDuration milliseconds
        let w := w.updDom d (fun dom => { dom with transitionS := anim.transition })
        ({ w with timers := w.timers ++ [who] }, [])
    let w := sync.1
    let w := if anim.fade then w.updDom d (fun dom => { dom with opacity := some 0 }) else w
    let w :=
      if anim.scale then
        let ts := toCSSTranslate (w.ui who).opts w.any3d (getMapOf w who) (w.ui who).pos
          ++ " scale(0)"
        w.updDom d (fun dom => { dom with transformS := some ts })
      else w
    let w := switchMapEventsRun w who false
    let co := collidesRun w who
    (co.1, sync.2 ++ co.2)

/-- The method remove: always delete the map-subscription flag first, then a
no-op without an owner; otherwise deregister from the map, hide, remove the
owner subscriptions, tear down a non-shared element, clear the owner, notify
removal, and touch the collision pass (a no-op once the owner is gone). -/
def removeRun (w : World) (who : Who) : World × List Ev :=
  let w := w.setUI who { w.ui who with mapEventsOn := none }
  match (w.ui who).owner with
  | none => (w, [])
  | some _ =>
    let evs0 : List Ev :=
      match getMapOf w who with
      | some _ => [Ev.removeUI who]
      | none => []
    let hd := hideRun w who
    let w := hd.1
    -- _switchEvents off removes owner subscriptions: no modelled state
    -- the onRemove hook is not defined in the base class
    let rp : World × List Ev :=
      if !(w.ui who).opts.single then
        match (w.ui who).domRef with
        | some _ => removePrevDOMRun w who
        | none => (w, [])
      else (w, [])
    let w := rp.1
    let w := w.setUI who { w.ui who with owner := none }
    let co := collidesRun w who
    (co.1, evs0 ++ hd.2 ++ rp.2 ++ [Ev.removeEv who] ++ co.2)

/-- A store of size value objects addressed by reference, capturing the
JavaScript object identity that getSize relies on: the cached size is an
object, and the method hands out a copy allocated as a fresh object. -/
structure SizeHeap where
  store : List (ℕ × Sz) := []
  next : ℕ := 0

def SizeHeap.get (h : SizeHeap) (r : ℕ) : Option Sz :=
  h.store.lookup r

def SizeHeap.set (h : SizeHeap) (r : ℕ) (s : Sz) : SizeHeap :=
  { h with store := h.store.map (fun kv => if kv.1 == r then (kv.1, s) else kv) }

def SizeHeap.alloc (h : SizeHeap) (s : Sz) : ℕ × SizeHeap :=
  (h.next, { store := (h.next, s) :: h.store, next := h.next + 1 })

/-- The instance fields getSize touches: the cached measured size (a heap
reference, absent until a measurement ran) and the latest resize-observation
content box. -/
structure GetSizeState where
  heap : SizeHeap := {}
  sizeRef : Option ℕ := none
  domContentRect : Option Sz := none

/-- The method getSize: when a resize observation and a cached size exist,
write the observed dimensions into the cached size object; then return a
fresh copy of the cached size, or null when nothing was ever measured. -/
def getSizeRun (st : GetSizeState) : Option ℕ × GetSizeState :=
  let st :=
    match st.domContentRect, st.sizeRef with
    | some rect, some r =>
      match st.heap.get r with
      | some s =>
        { st with heap := st.heap.set r { s with width := rect.width, height := rect.height } }
      | none => st
    | _, _ => st
  match st.sizeRef with
  | some r =>
    match st.heap.get r with
    | some s =>
      let al := st.heap.alloc s.copy
      (some al.1, { st with heap := al.2 })
    | none => (none, st)
  | none => (none, st)

/-- The event payload of contentchange: the previous stored content and the
raw new argument. -/
structure ContentChangeEv where
  old : Option String
  newContent : String
deriving DecidableEq, Repr

/-- The instance state of a TextMarker that setContent touches. -/
structure TextMarkerState where
  content : Option String := none
  refreshed : Bool := false
deriving DecidableEq, Repr

/-- The method getContent of TextMarker. -/
def getContent (st : TextMarkerState) : Option String :=
  st.content

/-- The method setContent of TextMarker.  The escapeSpecialChars helper
(core/util/strings, outside the specified core) is passed in as a function;
the method stores the escaped content, refreshes the symbol, and fires
contentchange with the previous stored content as old and the raw argument
as new. -/
def setContent (esc : String → String) (st : TextMarkerState) (content : String) :
    TextMarkerState × ContentChangeEv :=
  let old := st.content
  let st := { st with content := some (esc content) }
  let st := { st with refreshed := true }
  (st, { old := old, newContent := content })

theorem animFlags_foldl (l : List String) (b1 b2 : Bool) :
    List.foldl animFlagsStep (b1, b2) l =
      (b1 || l.any (fun t => jsTrim t == "fade"),
       b2 || l.any (fun t => jsTrim t == "scale")) := by
  induction l generalizing b1 b2 with
  | nil => simp
  | cons hd tl ih =>
    rw [List.foldl_cons, List.any_cons, List.any_cons]
    by_cases h1 : jsTrim hd = "fade"
    · simp [animFlagsStep, h1, ih, Bool.or_assoc, Bool.or_comm]
    · by_cases h2 : jsTrim hd = "scale"
      · simp [animFlagsStep, h1, h2, ih, Bool.or_assoc, Bool.or_comm]
      · have h1b : (jsTrim hd == "fade") = false := beq_eq_false_iff_ne.mpr h1
        have h2b : (jsTrim hd == "scale") = false := beq_eq_false_iff_ne.mpr h2
        simp [animFlagsStep, h1, h2, ih, h1b, h2b]

theorem append_lit_comma (s : String) : s ++ "ms" ++ "," = s ++ "ms," := by
  rw [String.append_assoc]
  congr 1

/-- C6: the animation resolver is a pure function of the configuration: it
splits the animation option at commas, trims each token, recognizes exactly
fade and scale, is not applicable exactly when neither is selected, and
otherwise builds the combined transition string covering opacity when fading
and the transform property when scaling, each at the configured duration; in
particular fade,scale at 500 yields both flags and the combined string. -/
theorem C6_animation_resolver (opts : Options) :
    (getAnimationRes opts).fade =
        (splitAnimations opts.animation).any (fun t => jsTrim t == "fade")
  ∧ (getAnimationRes opts).scale =
        (splitAnimations opts.animation).any (fun t => jsTrim t == "scale")
  ∧ (getAnimationRes opts).ok =
        ((getAnimationRes opts).fade || (getAnimationRes opts).scale)
  ∧ (getAnimationRes opts).transition =
        (if (getAnimationRes opts).fade && (getAnimationRes opts).scale then
          some ("opacity " ++ toString opts.animationDuration ++ "ms," ++
            TRANSFORMNAME ++ " " ++ toString opts.animationDuration ++ "ms")
        else if (getAnimationRes opts).fade then
          some ("opacity " ++ toString opts.animationDuration ++ "ms")
        else if (getAnimationRes opts).scale then
          some (TRANSFORMNAME ++ " " ++ toString opts.animationDuration ++ "ms")
        else none)
  ∧ getAnimationRes { animation := some "fade,scale", animationDuration := 500 } =
      { fade := true, scale := true,
        transition := some "opacity 500ms,transform 500ms", ok := true } := by
  have hf := animFlags_foldl (splitAnimations opts.animation) false false
  refine ⟨?_, ?_, ?_, ?_, by decide⟩
  · simp [getAnimationRes, hf]
  · simp [getAnimationRes, hf]
  · simp only [getAnimationRes, hf, Bool.false_or]
    rcases (splitAnimations opts.animation).any (fun t => jsTrim t == "fade") with _ | _ <;>
      rcases (splitAnimations opts.animation).any (fun t => jsTrim t == "scale") with _ | _ <;>
        simp
  · simp only [getAnimationRes, hf, Bool.false_or]
    rcases (splitAnimations opts.animation).any (fun t => jsTrim t == "fade") with _ | _ <;>
      rcases (splitAnimations opts.animation).any (fun t => jsTrim t == "scale") with _ | _ <;>
        simp [append_lit_comma]

/-- C7: with 3D support the transform is a 3D translate of the position
followed by a rotateX term of the rounded pitch exactly when pitchWithMap is
set and the pitch is nonzero and a rotateZ term of the rounded negated
bearing exactly when rotateWithMap is set and the bearing is nonzero;
without 3D support both rotation terms are omitted and the result is a plain
2D translate. -/
theorem C7_transform_terms (opts : Options) (mm : MapModel) (p : Pt) :
    toCSSTranslate opts true (some mm) (some p) =
      "translate3d(" ++ jsNumStr p.x ++ "px," ++ jsNumStr p.y ++ "px, 0px)" ++
        ((if opts.pitchWithMap = true ∧ mm.pitch ≠ 0 then
            " rotateX(" ++ toString (jsRound mm.pitch) ++ "deg)" else "") ++
         (if opts.rotateWithMap = true ∧ mm.bearing ≠ 0 then
            " rotateZ(" ++ toString (jsRound (-mm.bearing)) ++ "deg)" else ""))
  ∧ toCSSTranslate opts false (some mm) (some p) =
      "translate(" ++ jsNumStr p.x ++ "px," ++ jsNumStr p.y ++ "px)" := by
  constructor
  · simp only [toCSSTranslate]
    rcases hp : opts.pitchWithMap with _ | _ <;>
      rcases hb : opts.rotateWithMap with _ | _ <;>
        by_cases h1 : mm.pitch = 0 <;> by_cases h2 : mm.bearing = 0 <;>
          simp [h1, h2, bne_iff_ne]
  · simp [toCSSTranslate]

/-- C10: setContent stores the escaped form of the argument, a following
getContent returns that escaped content rather than the raw argument, and
the contentchange payload carries the raw argument as new and the previously
stored content as old. -/
theorem C10_setContent_escapes (esc : String → String) (st : TextMarkerState) (s : String) :
    (setContent esc st s).1.content = some (esc s)
  ∧ getContent (setContent esc st s).1 = some (esc s)
  ∧ (esc s ≠ s → getContent (setContent esc st s).1 ≠ some s)
  ∧ (setContent esc st s).2.old = st.content
  ∧ (setContent esc st s).2.newContent = s := by
  refine ⟨rfl, rfl, ?_, rfl, rfl⟩
  intro h hcontra
  simp only [setContent, getContent, Option.some.injEq] at hcontra
  exact h hcontra

theorem C10_setContent_escapes_witness :
    ((fun t => t ++ "X") "a" ≠ "a")
  ∧ getContent (setContent (fun t => t ++ "X") {} "a").1 ≠ some "a" := by
  exact ⟨by decide, (C10_setContent_escapes (fun t => t ++ "X") {} "a").2.2.1 (by decide)⟩

theorem lookup_cons_self {β : Type} (l : List (ℕ × β)) (k : ℕ) (v : β) :
    List.lookup k ((k, v) :: l) = some v := by
  simp [List.lookup]

theorem lookup_cons_ne {β : Type} (l : List (ℕ × β)) (k x : ℕ) (v : β) (h : x ≠ k) :
    List.lookup x ((k, v) :: l) = List.lookup x l := by
  have hb : (x == k) = false := beq_eq_false_iff_ne.mpr h
  simp [List.lookup, hb]

theorem lookup_upd_list {β : Type} (l : List (ℕ × β)) (r x : ℕ) (f : β → β) :
    List.lookup x (l.map (fun kv => if kv.1 == r then (kv.1, f kv.2) else kv)) =
      if x = r then (List.lookup x l).map f else List.lookup x l := by
  induction l with
  | nil => simp [List.lookup]
  | cons hd tl ih =>
    obtain ⟨k, v⟩ := hd
    by_cases hk : k = r
    · subst hk
      rw [List.map_cons, if_pos (show ((k, v).1 == k) = true by simp)]
      by_cases hx : x = k
      · subst hx
        rw [show (((x, v).1 : ℕ), f (x, v).2) = (x, f v) from rfl,
          lookup_cons_self, lookup_cons_self, if_pos rfl]
        simp
      · rw [show (((k, v).1 : ℕ), f (k, v).2) = (k, f v) from rfl,
          lookup_cons_ne _ _ _ _ hx, ih, if_neg hx, if_neg hx,
          lookup_cons_ne _ _ _ _ hx]
    · rw [List.map_cons, if_neg (show ¬((k, v).1 == r) = true by simp [hk])]
      by_cases hx : x = k
      · subst hx
        rw [lookup_cons_self, lookup_cons_self, if_neg hk]
      · rw [lookup_cons_ne _ _ _ _ hx, ih, lookup_cons_ne _ _ _ _ hx]

theorem SizeHeap.get_set (h : SizeHeap) (r x : ℕ) (s : Sz) :
    (h.set r s).get x = if x = r then (h.get x).map (fun _ => s) else h.get x :=
  lookup_upd_list h.store r x (fun _ => s)

theorem SizeHeap.next_set (h : SizeHeap) (r : ℕ) (s : Sz) : (h.set r s).next = h.next := rfl

theorem SizeHeap.get_alloc_self (h : SizeHeap) (s : Sz) :
    (h.alloc s).2.get h.next = some s :=
  lookup_cons_self h.store h.next s

theorem SizeHeap.get_alloc_ne (h : SizeHeap) (s : Sz) (x : ℕ) (hx : x ≠ h.next) :
    (h.alloc s).2.get x = h.get x :=
  lookup_cons_ne h.store h.next x s hx

/-- C9: getSize returns null when nothing was ever measured; otherwise it
returns a freshly allocated copy of the cached size, carrying the latest
resize-observation dimensions when they exist, and writing through the
returned reference cannot change the cached size. -/
theorem C9_getSize_copy (st : GetSizeState) :
    (st.sizeRef = none → getSizeRun st = (none, st))
  ∧ (∀ r s, st.sizeRef = some r → st.heap.get r = some s →
      st.heap.get st.heap.next = none →
      ∃ r2 h2, getSizeRun st = (some r2, { st with heap := h2 })
        ∧ r2 ≠ r
        ∧ h2.get r2 = some (Sz.copy (match st.domContentRect with
            | some rect => { width := rect.width, height := rect.height }
            | none => s))
        ∧ h2.get r = some (match st.domContentRect with
            | some rect => { width := rect.width, height := rect.height }
            | none => s)
        ∧ ∀ s2, (h2.set r2 s2).get r = h2.get r) := by
  constructor
  · intro h
    unfold getSizeRun
    rcases hrect : st.domContentRect with _ | rect <;> simp [h, hrect]
  · intro r s hr hs hfresh
    have hner : r ≠ st.heap.next := by
      intro he
      rw [he, hfresh] at hs
      exact Option.noConfusion hs
    rcases hrect : st.domContentRect with _ | rect
    · refine ⟨st.heap.next, (st.heap.alloc s.copy).2, ?_, fun he => hner he.symm, ?_, ?_, ?_⟩
      · unfold getSizeRun
        simp [hrect, hr, hs, SizeHeap.alloc]
      · exact SizeHeap.get_alloc_self st.heap s.copy
      · rw [SizeHeap.get_alloc_ne st.heap s.copy r hner]
        exact hs
      · intro s2
        rw [SizeHeap.get_set, if_neg hner]
    · have hget2 : (st.heap.set r { width := rect.width, height := rect.height }).get r =
          some { width := rect.width, height := rect.height } := by
        rw [SizeHeap.get_set, if_pos rfl, hs, Option.map_some']
      refine ⟨st.heap.next, ((st.heap.set r { width := rect.width, height := rect.height }).alloc
        (Sz.copy { width := rect.width, height := rect.height })).2, ?_,
        fun he => hner he.symm, ?_, ?_, ?_⟩
      · unfold getSizeRun
        simp [hrect, hr, hs, hget2, SizeHeap.alloc, SizeHeap.next_set]
      · exact SizeHeap.get_alloc_self (st.heap.set r { width := rect.width, height := rect.height })
          (Sz.copy { width := rect.width, height := rect.height })
      · rw [SizeHeap.get_alloc_ne (st.heap.set r { width := rect.width, height := rect.height })
          (Sz.copy { width := rect.width, height := rect.height }) r hner]
        exact hget2
      · intro s2
        rw [SizeHeap.get_set, if_neg hner]

def st9 : GetSizeState :=
  { heap := { store := [(0, { width := 3, height := 4 })], next := 1 }, sizeRef := some 0 }

theorem C9_getSize_copy_witness :
    st9.sizeRef = some 0
  ∧ st9.heap.get 0 = some { width := 3, height := 4 }
  ∧ st9.heap.get st9.heap.next = none
  ∧ ∃ r2 h2, getSizeRun st9 = (some r2, { st9 with heap := h2 }) ∧ r2 ≠ 0 := by
  refine ⟨rfl, by decide, by decide, ?_⟩
  obtain ⟨r2, h2, h1, h23, _⟩ :=
    (C9_getSize_copy st9).2 0 { width := 3, height := 4 } rfl (by decide) (by decide)
  exact ⟨r2, h2, h1, h23⟩

theorem jsRound_eq_round (q : ℚ) : jsRound q = round q := by
  have hpos : (0 : ℤ) ≤ 2 * (q.den : ℤ) := by positivity
  have h1 : jsRound q = (2 * q.num + (q.den : ℤ)) / (2 * (q.den : ℤ)) := by
    unfold jsRound
    exact Int.fdiv_eq_ediv _ hpos
  have hden : ((q.den : ℚ)) ≠ 0 := Nat.cast_ne_zero.mpr q.den_nz
  have hnum : q * (q.den : ℚ) = (q.num : ℚ) :=
    (eq_div_iff hden).mp (Rat.num_div_den q).symm
  have hq : q + 1/2 = (((2 * q.num + (q.den : ℤ)) : ℤ) : ℚ) / (((2 * q.den : ℕ)) : ℚ) := by
    push_cast
    rw [← hnum]
    field_simp
    rw [← hnum]
    ring
  rw [h1, round_eq, hq, Rat.floor_intCast_div_natCast]
  push_cast
  rfl

/-- Concrete map collaborator for the position counterexample: the
projection sends every coordinate to the fractional view point. -/
def cexMap : MapModel :=
  { coordToViewPoint := fun _ _ => { x := 52/5, y := 0 },
    altitudeToPoint := fun _ _ => 0,
    viewPointToContainerPoint := id, viewPointToPrj := id, containerPointToPoint := id,
    prjToPoint := id, pointToPrj := id, prjCenter := { x := 0, y := 0 } }

def cexOpts : Options := { roundPoint := true }

def cexOff : Pt := { x := 27/5, y := 0 }

def cexOwner : Owner := {}

/-- C2 counterexample: with roundPoint set, a fractional projected view
point of 52/5 and a content offset of 27/5, getPosition yields 10 + 5 = 15,
while rounding after the offset addition as the claim states would give
round(79/5) = 16. -/
theorem C2_round_counterexample :
    getPosition cexOpts (some {}) (some cexOwner) (some (some cexOff)) (some cexMap) =
      Except.ok (some { x := 15, y := 0 })
  ∧ (getViewPoint cexOpts (some {}) (some cexOwner) cexMap).x = 52/5
  ∧ cexOff.x = 27/5
  ∧ jsRound (52/5 + 27/5) = 16
  ∧ (15 : ℚ) ≠ ((16 : ℤ) : ℚ) := by
  refine ⟨?_, ?_, rfl, ?_, by norm_num⟩
  · simp only [getPosition, getViewPoint, roundPointIf, cexOpts, cexMap, cexOff, cexOwner,
      ownerAltitudeOf, meterToPoint, jsSign, Pt.add, Pt.add2, Pt.round2]
    norm_num [jsRound]
    refine ⟨?_, by decide⟩
    rw [show Int.fdiv 109 10 = 10 from by decide, show Int.fdiv 59 10 = 5 from by decide]
    norm_num
  · simp only [getViewPoint, cexOpts, cexMap, cexOwner, ownerAltitudeOf, meterToPoint,
      jsSign, Pt.add2]
    norm_num
  · norm_num [jsRound]
    decide

/-- C2 amended: with roundPoint set and a content-anchor offset present, the
position has integer components, but it is the sum of the separately rounded
view point (which already includes the dx and dy pixel offsets, added before
rounding) and the separately rounded content offset; the rounding is not
deferred until after the content offset is added. -/
theorem C2_round_amended (opts : Options) (c : Option Coordinate) (ow : Option Owner)
    (o : Pt) (m : MapModel) (hrp : opts.roundPoint = true) :
    getPosition opts c ow (some (some o)) (some m) =
      Except.ok (some
        { x := ((jsRound (getViewPoint opts c ow m).x + jsRound o.x : ℤ) : ℚ),
          y := ((jsRound (getViewPoint opts c ow m).y + jsRound o.y : ℤ) : ℚ) }) := by
  simp only [getPosition, roundPointIf, hrp, if_true, Pt.round2, Pt.add]
  push_cast
  rfl

theorem C2_round_amended_witness :
    cexOpts.roundPoint = true
  ∧ getPosition cexOpts (some {}) (some cexOwner) (some (some cexOff)) (some cexMap) =
      Except.ok (some
        { x := ((jsRound (getViewPoint cexOpts (some {}) (some cexOwner) cexMap).x
                   + jsRound cexOff.x : ℤ) : ℚ),
          y := ((jsRound (getViewPoint cexOpts (some {}) (some cexOwner) cexMap).y
                   + jsRound cexOff.y : ℤ) : ℚ) }) :=
  ⟨rfl, C2_round_amended cexOpts (some {}) (some cexOwner) cexOff cexMap rfl⟩

@[simp] theorem ui_setUI_same (w : World) (who : Who) (u : UI) :
    (w.setUI who u).ui who = u := by
  cases who <;> rfl

@[simp] theorem ui_setUI_ne (w : World) (who who2 : Who) (u : UI) (h : who2 ≠ who) :
    (w.setUI who u).ui who2 = w.ui who2 := by
  cases who <;> cases who2 <;> first | rfl | exact absurd rfl h

@[simp] theorem panTarget_setUI (w : World) (who : Who) (u : UI) :
    (w.setUI who u).panTarget = w.panTarget := by cases who <;> rfl

@[simp] theorem slot_setUI (w : World) (who : Who) (u : UI) :
    (w.setUI who u).slot = w.slot := by cases who <;> rfl

@[simp] theorem doms_setUI (w : World) (who : Who) (u : UI) :
    (w.setUI who u).doms = w.doms := by cases who <;> rfl

@[simp] theorem getDom_setUI (w : World) (who : Who) (u : UI) (d : ℕ) :
    (w.setUI who u).getDom d = w.getDom d := by cases who <;> rfl

@[simp] theorem nextDom_setUI (w : World) (who : Who) (u : UI) :
    (w.setUI who u).nextDom = w.nextDom := by cases who <;> rfl

@[simp] theorem map_setUI (w : World) (who : Who) (u : UI) :
    (w.setUI who u).map = w.map := by cases who <;> rfl

@[simp] theorem any3d_setUI (w : World) (who : Who) (u : UI) :
    (w.setUI who u).any3d = w.any3d := by cases who <;> rfl

@[simp] theorem rosupport_setUI (w : World) (who : Who) (u : UI) :
    (w.setUI who u).resizeObserverSupport = w.resizeObserverSupport := by cases who <;> rfl

@[simp] theorem timers_setUI (w : World) (who : Who) (u : UI) :
    (w.setUI who u).timers = w.timers := by cases who <;> rfl

@[simp] theorem ui_updDom (w : World) (d : ℕ) (f : Dom → Dom) (who : Who) :
    (w.updDom d f).ui who = w.ui who := by cases who <;> rfl

@[simp] theorem panTarget_updDom (w : World) (d : ℕ) (f : Dom → Dom) :
    (w.updDom d f).panTarget = w.panTarget := rfl

@[simp] theorem slot_updDom (w : World) (d : ℕ) (f : Dom → Dom) :
    (w.updDom d f).slot = w.slot := rfl

@[simp] theorem nextDom_updDom (w : World) (d : ℕ) (f : Dom → Dom) :
    (w.updDom d f).nextDom = w.nextDom := rfl

@[simp] theorem map_updDom (w : World) (d : ℕ) (f : Dom → Dom) :
    (w.updDom d f).map = w.map := rfl

@[simp] theorem any3d_updDom (w : World) (d : ℕ) (f : Dom → Dom) :
    (w.updDom d f).any3d = w.any3d := rfl

@[simp] theorem rosupport_updDom (w : World) (d : ℕ) (f : Dom → Dom) :
    (w.updDom d f).resizeObserverSupport = w.resizeObserverSupport := rfl

@[simp] theorem timers_updDom (w : World) (d : ℕ) (f : Dom → Dom) :
    (w.updDom d f).timers = w.timers := rfl

theorem getDom_updDom (w : World) (d : ℕ) (f : Dom → Dom) (x : ℕ) :
    (w.updDom d f).getDom x = if x = d then (w.getDom x).map f else w.getDom x :=
  lookup_upd_list w.doms d x f

@[simp] theorem fst_allocDom (w : World) (spec : DomSpec) :
    (w.allocDom spec).1 = w.nextDom := rfl

@[simp] theorem ui_allocDom (w : World) (spec : DomSpec) (who : Who) :
    ((w.allocDom spec).2).ui who = w.ui who := by cases who <;> rfl

@[simp] theorem panTarget_allocDom (w : World) (spec : DomSpec) :
    ((w.allocDom spec).2).panTarget = w.panTarget := rfl

@[simp] theorem slot_allocDom (w : World) (spec : DomSpec) :
    ((w.allocDom spec).2).slot = w.slot := rfl

@[simp] theorem map_allocDom (w : World) (spec : DomSpec) :
    ((w.allocDom spec).2).map = w.map := rfl

@[simp] theorem any3d_allocDom (w : World) (spec : DomSpec) :
    ((w.allocDom spec).2).any3d = w.any3d := rfl

@[simp] theorem rosupport_allocDom (w : World) (spec : DomSpec) :
    ((w.allocDom spec).2).resizeObserverSupport = w.resizeObserverSupport := rfl

@[simp] theorem timers_allocDom (w : World) (spec : DomSpec) :
    ((w.allocDom spec).2).timers = w.timers := rfl

@[simp] theorem nextDom_allocDom (w : World) (spec : DomSpec) :
    ((w.allocDom spec).2).nextDom = w.nextDom + 1 := rfl

theorem getDom_allocDom (w : World) (spec : DomSpec) (x : ℕ) :
    ((w.allocDom spec).2).getDom x =
      if x = w.nextDom then some { spec := spec } else w.getDom x := by
  by_cases hx : x = w.nextDom
  · rw [if_pos hx, hx]
    exact lookup_cons_self _ _ _
  · rw [if_neg hx]
    exact lookup_cons_ne _ _ _ _ hx

@[simp] theorem ui_setSlot (w : World) (s : Option ℕ) (who : Who) :
    (w.setSlot s).ui who = w.ui who := by cases who <;> rfl

@[simp] theorem slot_setSlot (w : World) (s : Option ℕ) : (w.setSlot s).slot = s := rfl

@[simp] theorem panTarget_setSlot (w : World) (s : Option ℕ) :
    (w.setSlot s).panTarget = w.panTarget := rfl

@[simp] theorem getDom_setSlot (w : World) (s : Option ℕ) (d : ℕ) :
    (w.setSlot s).getDom d = w.getDom d := rfl

@[simp] theorem map_setSlot (w : World) (s : Option ℕ) : (w.setSlot s).map = w.map := rfl

@[simp] theorem nextDom_setSlot (w : World) (s : Option ℕ) :
    (w.setSlot s).nextDom = w.nextDom := rfl

@[simp] theorem any3d_setSlot (w : World) (s : Option ℕ) :
    (w.setSlot s).any3d = w.any3d := rfl

@[simp] theorem rosupport_setSlot (w : World) (s : Option ℕ) :
    (w.setSlot s).resizeObserverSupport = w.resizeObserverSupport := rfl

@[simp] theorem timers_setSlot (w : World) (s : Option ℕ) :
    (w.setSlot s).timers = w.timers := rfl

theorem getMapOf_congr (w w2 : World) (who who2 : Who)
    (howner : (w2.ui who2).owner = (w.ui who).owner) (hmap : w2.map = w.map) :
    getMapOf w2 who2 = getMapOf w who := by
  unfold getMapOf
  rw [howner]
  rcases (w.ui who).owner with _ | o
  · rfl
  · rw [hmap]

theorem getMapOf_eq_some (w : World) (who : Who) (o : Owner)
    (howner : (w.ui who).owner = some o) (honmap : o.onMap = true) :
    getMapOf w who = some w.map := by
  unfold getMapOf
  rw [howner]
  simp [honmap]

theorem getMapOf_none_of_owner_none (w : World) (who : Who)
    (h : (w.ui who).owner = none) : getMapOf w who = none := by
  unfold getMapOf
  rw [h]

theorem eq_map_of_getMapOf (w : World) (who : Who) (m : MapModel)
    (h : getMapOf w who = some m) : m = w.map := by
  unfold getMapOf at h
  rcases ho : (w.ui who).owner with _ | o <;> rw [ho] at h
  · exact Option.noConfusion h
  · dsimp only at h
    by_cases hon : o.onMap
    · rw [if_pos hon] at h
      exact (Option.some.inj h).symm
    · rw [if_neg hon] at h
      exact Option.noConfusion h

theorem collidesRun_fst (w : World) (who : Who) : (collidesRun w who).1 = w := by
  rcases hm : getMapOf w who with _ | m <;> simp [collidesRun, hm]

theorem panTarget_switch (w : World) (who : Who) (b : Bool) :
    (switchMapEventsRun w who b).panTarget = w.panTarget := by
  rcases hm : getMapOf w who with _ | m <;> simp [switchMapEventsRun, hm]

theorem ui_opts_switch (w : World) (who who2 : Who) (b : Bool) :
    ((switchMapEventsRun w who b).ui who2).opts = (w.ui who2).opts := by
  by_cases h2 : who2 = who
  · subst h2
    rcases hm : getMapOf w who2 with _ | m <;> simp [switchMapEventsRun, hm]
  · rcases hm : getMapOf w who with _ | m <;> simp [switchMapEventsRun, hm, h2]

@[simp] theorem ui_ite (c : Prop) [Decidable c] (a b : World) (who : Who) :
    (ite c a b).ui who = ite c (a.ui who) (b.ui who) :=
  apply_ite (fun ww => World.ui ww who) c a b

@[simp] theorem panTarget_ite (c : Prop) [Decidable c] (a b : World) :
    (ite c a b).panTarget = ite c a.panTarget b.panTarget :=
  apply_ite World.panTarget c a b

@[simp] theorem slot_ite (c : Prop) [Decidable c] (a b : World) :
    (ite c a b).slot = ite c a.slot b.slot :=
  apply_ite World.slot c a b

@[simp] theorem getDom_ite (c : Prop) [Decidable c] (a b : World) (d : ℕ) :
    (ite c a b).getDom d = ite c (a.getDom d) (b.getDom d) :=
  apply_ite (fun ww => World.getDom ww d) c a b

@[simp] theorem nextDom_ite (c : Prop) [Decidable c] (a b : World) :
    (ite c a b).nextDom = ite c a.nextDom b.nextDom :=
  apply_ite World.nextDom c a b

@[simp] theorem map_ite (c : Prop) [Decidable c] (a b : World) :
    (ite c a b).map = ite c a.map b.map :=
  apply_ite World.map c a b

@[simp] theorem any3d_ite (c : Prop) [Decidable c] (a b : World) :
    (ite c a b).any3d = ite c a.any3d b.any3d :=
  apply_ite World.any3d c a b

@[simp] theorem rosupport_ite (c : Prop) [Decidable c] (a b : World) :
    (ite c a b).resizeObserverSupport = ite c a.resizeObserverSupport b.resizeObserverSupport :=
  apply_ite World.resizeObserverSupport c a b

@[simp] theorem timers_ite (c : Prop) [Decidable c] (a b : World) :
    (ite c a b).timers = ite c a.timers b.timers :=
  apply_ite World.timers c a b

@[simp] theorem a_ite (c : Prop) [Decidable c] (x y : World) :
    (ite c x y).a = ite c x.a y.a :=
  apply_ite World.a c x y

@[simp] theorem b_ite (c : Prop) [Decidable c] (x y : World) :
    (ite c x y).b = ite c x.b y.b :=
  apply_ite World.b c x y

@[simp] theorem opts_ite (c : Prop) [Decidable c] (a b : UI) :
    (ite c a b).opts = ite c a.opts b.opts :=
  apply_ite UI.opts c a b

@[simp] theorem mapEventsOn_ite (c : Prop) [Decidable c] (a b : UI) :
    (ite c a b).mapEventsOn = ite c a.mapEventsOn b.mapEventsOn :=
  apply_ite UI.mapEventsOn c a b

@[simp] theorem domRef_ite (c : Prop) [Decidable c] (a b : UI) :
    (ite c a b).domRef = ite c a.domRef b.domRef :=
  apply_ite UI.domRef c a b

@[simp] theorem uiowner_ite (c : Prop) [Decidable c] (a b : UI) :
    (ite c a b).owner = ite c a.owner b.owner :=
  apply_ite UI.owner c a b

@[simp] theorem fstw_ite {α β : Type} (c : Prop) [Decidable c] (a b : α × β) :
    (ite c a b).1 = ite c a.1 b.1 :=
  apply_ite Prod.fst c a b

@[simp] theorem sndw_ite {α β : Type} (c : Prop) [Decidable c] (a b : α × β) :
    (ite c a b).2 = ite c a.2 b.2 :=
  apply_ite Prod.snd c a b

@[simp] theorem attached_ite (c : Prop) [Decidable c] (a b : Dom) :
    (ite c a b).attached = ite c a.attached b.attached :=
  apply_ite Dom.attached c a b

@[simp] theorem uiComponentTag_ite (c : Prop) [Decidable c] (a b : Dom) :
    (ite c a b).uiComponentTag = ite c a.uiComponentTag b.uiComponentTag :=
  apply_ite Dom.uiComponentTag c a b

@[simp] theorem display_ite (c : Prop) [Decidable c] (a b : Dom) :
    (ite c a b).display = ite c a.display b.display :=
  apply_ite Dom.display c a b

theorem panTarget_removePrev (w : World) (who : Who) :
    (removePrevDOMRun w who).1.panTarget = w.panTarget := by
  unfold removePrevDOMRun
  by_cases hs : (w.ui who).opts.single
  · rcases hslot : w.slot with _ | d
    · simp [hs, hslot]
    · rcases hdom : w.getDom d with _ | dom
      · simp [hs, hslot, hdom, panTarget_switch]
      · rcases htag : dom.uiComponentTag with _ | occ <;>
          simp [hs, hslot, hdom, htag, panTarget_switch]
  · rcases hdr : (w.ui who).domRef with _ | d <;> simp [hs, hdr]

theorem ui_opts_removePrev (w : World) (who who2 : Who) :
    ((removePrevDOMRun w who).1.ui who2).opts = (w.ui who2).opts := by
  unfold removePrevDOMRun
  by_cases hs : (w.ui who).opts.single
  · by_cases h2 : who2 = who <;> rcases hslot : w.slot with _ | d
    · simp [hs, hslot, h2, ui_opts_switch]
    · rcases hdom : w.getDom d with _ | dom
      · simp [hs, hslot, hdom, h2, ui_opts_switch]
      · rcases htag : dom.uiComponentTag with _ | occ <;>
          simp [hs, hslot, hdom, htag, h2, ui_opts_switch]
    · simp [hs, hslot, h2, ui_opts_switch]
    · rcases hdom : w.getDom d with _ | dom
      · simp [hs, hslot, hdom, h2, ui_opts_switch]
      · rcases htag : dom.uiComponentTag with _ | occ <;>
          simp [hs, hslot, hdom, htag, h2, ui_opts_switch]
  · by_cases h2 : who2 = who <;> rcases hdr : (w.ui who).domRef with _ | d <;>
      simp [hs, hdr, h2]

theorem panTarget_observer (w : World) (who : Who) (d : Option ℕ) :
    (observerDomSizeRun w who d).panTarget = w.panTarget := by
  unfold observerDomSizeRun
  rcases d with _ | d2
  · rfl
  · simp

theorem ui_opts_observer (w : World) (who who2 : Who) (d : Option ℕ) :
    ((observerDomSizeRun w who d).ui who2).opts = (w.ui who2).opts := by
  unfold observerDomSizeRun
  rcases d with _ | d2
  · rfl
  · by_cases h2 : who2 = who
    · subst h2
      simp
    · simp [h2]

theorem panTarget_measure (w : World) (who : Who) (d : ℕ) :
    (measureSizeRun w who d).1.panTarget = w.panTarget := by
  unfold measureSizeRun
  simp

theorem ui_opts_measure (w : World) (who who2 : Who) (d : ℕ) :
    ((measureSizeRun w who d).1.ui who2).opts = (w.ui who2).opts := by
  unfold measureSizeRun
  by_cases h2 : who2 = who
  · subst h2
    simp
  · simp [h2]

theorem panTarget_setPosition (w : World) (who : Who) :
    (setPositionRun w who).1.panTarget = w.panTarget := by
  simp only [setPositionRun]
  rcases hd : (w.ui who).domRef with _ | d
  · simp
  · simp only [hd]
    split <;> simp

theorem ui_opts_setPosition (w : World) (who who2 : Who) :
    ((setPositionRun w who).1.ui who2).opts = (w.ui who2).opts := by
  simp only [setPositionRun]
  rcases hd : (w.ui who).domRef with _ | d
  · simp
  · simp only [hd]
    split
    · simp
    · by_cases h2 : who2 = who
      · subst h2
        simp
      · simp [h2]

@[simp] theorem ui_withPanTarget (w : World) (p : Option Pt) (who : Who) :
    World.ui { w with panTarget := p } who = w.ui who := by cases who <;> rfl

@[simp] theorem ui_withTimers (w : World) (t : List Who) (who : Who) :
    World.ui { w with timers := t } who = w.ui who := by cases who <;> rfl

theorem ui_autoPan (w : World) (who who2 : Who) :
    ((autoPanRun w who).1).ui who2 = w.ui who2 := by
  unfold autoPanRun
  rcases hm : getMapOf w who with _ | m
  · rfl
  · by_cases hmov : m.isMovingFlag
    · simp [hmov]
    · rcases hoff : (w.ui who).getOffsetHook with _ | off
      · simp [hmov, hoff]
      · rcases off with _ | o2
        · simp [hmov, hoff]
        · simp [hmov, hoff]

theorem ui_showStyles (w : World) (who : Who) (d : ℕ) (visible : Bool) (who2 : Who) :
    ((showStylesRun w who d visible).1).ui who2 = w.ui who2 := by
  unfold showStylesRun
  by_cases hap : ((w.ui who).opts.autoPan = true)
  · simp [hap, ui_autoPan]
  · simp [hap, ui_autoPan]

theorem showStyles_snd_noPan (w : World) (who : Who) (d : ℕ) (visible : Bool)
    (h : (w.ui who).opts.autoPan = false) :
    (showStylesRun w who d visible).2 = false := by
  unfold showStylesRun
  simp [h]

theorem showStyles_panTarget_noPan (w : World) (who : Who) (d : ℕ) (visible : Bool)
    (h : (w.ui who).opts.autoPan = false) :
    (showStylesRun w who d visible).1.panTarget = w.panTarget := by
  unfold showStylesRun
  simp [h]


theorem autoPanRun_noop_moving (w : World) (who : Who) (h : w.map.isMovingFlag = true) :
    autoPanRun w who = (w, false) := by
  rcases hm : getMapOf w who with _ | m
  · simp [autoPanRun, hm]
  · have hmm := eq_map_of_getMapOf w who m hm
    subst hmm
    simp [autoPanRun, hm, h]

theorem panTarget_showPhase1 (w : World) (who : Who) (c : Option Coordinate) :
    (showPhase1 w who c).1.panTarget = w.panTarget := by
  unfold showPhase1
  simp [panTarget_removePrev, panTarget_switch]

theorem autoPan_showPhase1 (w : World) (who who2 : Who) (c : Option Coordinate) :
    ((showPhase1 w who c).1.ui who2).opts.autoPan = (w.ui who2).opts.autoPan := by
  unfold showPhase1
  by_cases h2 : who2 = who <;>
    simp [ui_opts_removePrev, ui_opts_switch, h2]

theorem panTarget_showPhase2_noPan (w : World) (who : Who) (spec : DomSpec) (visible : Bool)
    (h : (w.ui who).opts.autoPan = false) :
    (showPhase2 w who spec visible).1.panTarget = w.panTarget := by
  unfold showPhase2
  simp_all [showStyles_snd_noPan, showStyles_panTarget_noPan, ui_opts_observer,
      ui_opts_measure, ui_opts_setPosition, panTarget_observer, panTarget_measure,
      panTarget_setPosition, collidesRun_fst]

theorem showRun_panTarget_noPan (w : World) (who : Who) (c : Option Coordinate)
    (h : (w.ui who).opts.autoPan = false) :
    (showRun w who c).1.panTarget = w.panTarget := by
  rcases hm : getMapOf w who with _ | m
  · simp [showRun, hm]
  · have h1 := panTarget_showPhase1 w who c
    have h2 := autoPan_showPhase1 w who who c
    rcases hb : ((showPhase1 w who c).1.ui who).buildOnResult with _ | spec
    · simp [showRun, hm, hb, h1]
    · have hpre : ((showPhase1 w who c).1.ui who).opts.autoPan = false := by
        rw [h2]
        exact h
      have h3 := panTarget_showPhase2_noPan (showPhase1 w who c).1 who spec
        (showPhase1 w who c).2.2 hpre
      simp [showRun, hm, hb, h3, h1]

/-- C8: the pan animation is requested only when the autoPan option is set
(show leaves the pan target untouched otherwise) and the map is not already
moving (the helper is then a complete no-op); when a box exceeds the right
container edge by 40 pixels at margin 50, the computed horizontal shift is
-90 pixels, placing the right edge exactly 50 pixels inside the boundary. -/
theorem C8_autoPan_gating (w : World) (who : Who) (c : Option Coordinate)
    (mapW mapH : ℚ) (cp0 cp : Pt) (domW domH : ℚ) :
    ((w.ui who).opts.autoPan = false → (showRun w who c).1.panTarget = w.panTarget)
  ∧ (w.map.isMovingFlag = true → autoPanRun w who = (w, false))
  ∧ (¬(cp.x < 0) → cp.x + domW = mapW + 40 → ¬(domW ≥ mapW) →
      ¬(cp.y - domH < 0) → ¬(cp.y + domH > mapH) →
      autoPanLeftTop mapW mapH cp0 cp domW domH = (-90, 0)
        ∧ cp.x + domW + (autoPanLeftTop mapW mapH cp0 cp domW domH).1 = mapW - 50) := by
  refine ⟨fun h => showRun_panTarget_noPan w who c h,
    fun h => autoPanRun_noop_moving w who h, ?_⟩
  intro h1 h2 h3 h4 h5
  have hgt : cp.x + domW > mapW := by rw [h2]; linarith
  have hval : autoPanLeftTop mapW mapH cp0 cp domW domH = (-90, 0) := by
    simp only [autoPanLeftTop]
    rw [if_neg h1, if_pos hgt, if_neg h4, if_neg h5, if_neg h3]
    have hl : -((cp.x + domW) - mapW) - 50 = (-90 : ℚ) := by rw [h2]; ring
    rw [hl]
  refine ⟨hval, ?_⟩
  rw [hval]
  show cp.x + domW + (-90 : ℚ) = mapW - 50
  rw [h2]
  ring

def w8 : World := { map := cexMap }

def w8m : World := { map := { cexMap with isMovingFlag := true } }

theorem C8_autoPan_gating_witness :
    ((w8.ui Who.ua).opts.autoPan = false
      ∧ (showRun w8 Who.ua none).1.panTarget = w8.panTarget)
  ∧ (w8m.map.isMovingFlag = true ∧ autoPanRun w8m Who.ua = (w8m, false))
  ∧ (¬((300 : ℚ) < 0) ∧ (300 : ℚ) + 140 = 400 + 40 ∧ ¬((140 : ℚ) ≥ 400)
      ∧ ¬((200 : ℚ) - 50 < 0) ∧ ¬((200 : ℚ) + 50 > 400)
      ∧ autoPanLeftTop 400 400 { x := 300, y := 200 } { x := 300, y := 200 } 140 50 =
          (-90, 0)) := by
  refine ⟨⟨rfl, (C8_autoPan_gating w8 Who.ua none 0 0 { x := 0, y := 0 } { x := 0, y := 0 }
      0 0).1 rfl⟩,
    ⟨rfl, (C8_autoPan_gating w8m Who.ua none 0 0 { x := 0, y := 0 } { x := 0, y := 0 }
      0 0).2.1 rfl⟩,
    by norm_num, by norm_num, by norm_num, by norm_num, by norm_num, ?_⟩
  exact ((C8_autoPan_gating w8 Who.ua none 400 400 { x := 300, y := 200 }
    { x := 300, y := 200 } 140 50).2.2 (by norm_num) (by norm_num) (by norm_num)
    (by norm_num) (by norm_num)).1

theorem setUI_self (w : World) (who : Who) : w.setUI who (w.ui who) = w := by
  cases who <;> rfl

theorem hideRun_noop_of_no_dom (w : World) (who : Who) (h : (w.ui who).domRef = none) :
    hideRun w who = (w, []) := by
  simp [hideRun, h]

theorem removeRun_detached (w : World) (who : Who) (h : (w.ui who).owner = none) :
    removeRun w who = (w.setUI who { w.ui who with mapEventsOn := none }, []) := by
  unfold removeRun
  simp [h]

/-- C5 amended: hide on a never-shown overlay is a complete no-op, and
remove on a detached overlay fires no notifications and changes nothing
except deleting the map-subscription flag; when that flag is already absent
(as on any freshly constructed instance) remove is a complete no-op too. -/
theorem C5_never_shown_noop_amended (w : World) (who : Who) :
    ((w.ui who).domRef = none → hideRun w who = (w, []))
  ∧ ((w.ui who).owner = none →
      removeRun w who = (w.setUI who { w.ui who with mapEventsOn := none }, [])
      ∧ ((w.ui who).mapEventsOn = none → removeRun w who = (w, []))) := by
  refine ⟨hideRun_noop_of_no_dom w who, fun h => ⟨removeRun_detached w who h, fun hme => ?_⟩⟩
  rw [removeRun_detached w who h]
  have h2 : ({ w.ui who with mapEventsOn := none } : UI) = w.ui who := by
    rw [← hme]
  rw [h2, setUI_self]

def w5b : World := { map := cexMap }

theorem C5_never_shown_noop_amended_witness :
    (w5b.ui Who.ua).domRef = none
  ∧ (w5b.ui Who.ua).owner = none
  ∧ (w5b.ui Who.ua).mapEventsOn = none
  ∧ hideRun w5b Who.ua = (w5b, [])
  ∧ removeRun w5b Who.ua = (w5b, []) := by
  refine ⟨rfl, rfl, rfl, (C5_never_shown_noop_amended w5b Who.ua).1 rfl,
    (((C5_never_shown_noop_amended w5b Who.ua).2 rfl).2) rfl⟩

/-- A detached overlay that was previously shown and removed: its owner is
gone but the map-subscription flag is still present (and false). -/
def w5 : World := { map := cexMap, a := { mapEventsOn := some false } }

/-- C5 counterexample: remove on a detached instance deletes the
map-subscription flag before the owner check, so the instance state changes
even though no notification fires; the claim of a complete no-op fails. -/
theorem C5_remove_detached_counterexample :
    (w5.ui Who.ua).owner = none
  ∧ (removeRun w5 Who.ua).2 = []
  ∧ (w5.ui Who.ua).mapEventsOn = some false
  ∧ ((removeRun w5 Who.ua).1.ui Who.ua).mapEventsOn = none
  ∧ (removeRun w5 Who.ua).1 ≠ w5 := by
  refine ⟨rfl, by decide, rfl, by decide, ?_⟩
  intro he
  have h1 : ((removeRun w5 Who.ua).1.ui Who.ua).mapEventsOn = none := by decide
  rw [he] at h1
  exact absurd h1 (by decide)

/-- An overlay attached to a map whose buildOn hook produces no element. -/
def w3 : World := { map := cexMap, a := { owner := some {}, coordinate := some {} } }

/-- C3: when buildOn yields no element, show does not complete: the write of
the eventsPropagation property on the missing element throws before the
emptiness check, so showstart has fired but neither showend nor collision
registration happens.  The graceful branch in the source is unreachable. -/
theorem C3_buildOn_null_throws :
    (showRun w3 Who.ua none).2.2 = true
  ∧ (showRun w3 Who.ua none).2.1 = [Ev.showstart Who.ua]
  ∧ Ev.showend Who.ua ∉ (showRun w3 Who.ua none).2.1
  ∧ Ev.collides Who.ua ∉ (showRun w3 Who.ua none).2.1 := by
  refine ⟨by decide, by decide, by decide, by decide⟩

/-- An overlay mid-way through an animated hide: element attached and shown,
fade animation configured, hide animation enabled, subscriptions active. -/
def w4 : World :=
  { map := cexMap,
    a := { opts := { animation := some "fade", animationOnHide := true },
           owner := some {}, domRef := some 0, mapEventsOn := some true,
           coordinate := some {} },
    doms := [(0, { attached := true })],
    nextDom := 1 }

/-- C4 counterexample: hide with a pending hide-animation timer (timer
queued, element still displayed, hide notification not yet fired) has
already switched the map subscriptions off synchronously, so during the
animated-hide window the subscriptions are inactive, not active. -/
theorem C4_hide_window_counterexample :
    ((hideRun w4 Who.ua).1.ui Who.ua).mapEventsOn = some false
  ∧ (hideRun w4 Who.ua).1.timers = [Who.ua]
  ∧ ((hideRun w4 Who.ua).1.getDom 0).map Dom.display = some ""
  ∧ Ev.hideEv Who.ua ∉ (hideRun w4 Who.ua).2
  ∧ ((hideRun w4 Who.ua).1.ui Who.ua).opts.visible = false := by
  refine ⟨by decide, by decide, by decide, by decide, by decide⟩

theorem ui_owner_switch (w : World) (who who2 : Who) (b : Bool) :
    ((switchMapEventsRun w who b).ui who2).owner = (w.ui who2).owner := by
  by_cases h2 : who2 = who
  · subst h2
    rcases hm : getMapOf w who2 with _ | m <;> simp [switchMapEventsRun, hm]
  · rcases hm : getMapOf w who with _ | m <;> simp [switchMapEventsRun, hm, h2]

theorem ui_owner_removePrev (w : World) (who who2 : Who) :
    ((removePrevDOMRun w who).1.ui who2).owner = (w.ui who2).owner := by
  unfold removePrevDOMRun
  by_cases hs : (w.ui who).opts.single
  · by_cases h2 : who2 = who <;> rcases hslot : w.slot with _ | d
    · simp [hs, hslot, h2, ui_owner_switch]
    · rcases hdom : w.getDom d with _ | dom
      · simp [hs, hslot, hdom, h2, ui_owner_switch]
      · rcases htag : dom.uiComponentTag with _ | occ <;>
          simp [hs, hslot, hdom, htag, h2, ui_owner_switch]
    · simp [hs, hslot, h2, ui_owner_switch]
    · rcases hdom : w.getDom d with _ | dom
      · simp [hs, hslot, hdom, h2, ui_owner_switch]
      · rcases htag : dom.uiComponentTag with _ | occ <;>
          simp [hs, hslot, hdom, htag, h2, ui_owner_switch]
  · by_cases h2 : who2 = who <;> rcases hdr : (w.ui who).domRef with _ | d <;>
      simp [hs, hdr, h2]

theorem ui_me_observer (w : World) (who who2 : Who) (d : Option ℕ) :
    ((observerDomSizeRun w who d).ui who2).mapEventsOn = (w.ui who2).mapEventsOn := by
  unfold observerDomSizeRun
  rcases d with _ | d2
  · rfl
  · by_cases h2 : who2 = who
    · subst h2
      simp
    · simp [h2]

theorem ui_me_measure (w : World) (who who2 : Who) (d : ℕ) :
    ((measureSizeRun w who d).1.ui who2).mapEventsOn = (w.ui who2).mapEventsOn := by
  unfold measureSizeRun
  by_cases h2 : who2 = who
  · subst h2
    simp
  · simp [h2]

theorem ui_me_setPosition (w : World) (who who2 : Who) :
    ((setPositionRun w who).1.ui who2).mapEventsOn = (w.ui who2).mapEventsOn := by
  simp only [setPositionRun]
  rcases hd : (w.ui who).domRef with _ | d
  · simp
  · simp only [hd]
    split
    · simp
    · by_cases h2 : who2 = who
      · subst h2
        simp
      · simp [h2]

theorem mapEventsOn_switch_self (w : World) (who : Who) (b : Bool) (m : MapModel)
    (hm : getMapOf w who = some m) :
    ((switchMapEventsRun w who b).ui who).mapEventsOn = some b := by
  unfold switchMapEventsRun
  rw [hm]
  simp

theorem ensureOn_mapEventsOn (w : World) (who : Who) (o : Owner)
    (howner : (w.ui who).owner = some o) (honmap : o.onMap = true) :
    ((if (w.ui who).mapEventsOn = some true then w
      else switchMapEventsRun w who true).ui who).mapEventsOn = some true := by
  by_cases h : (w.ui who).mapEventsOn = some true
  · rw [if_pos h]
    exact h
  · rw [if_neg h]
    exact mapEventsOn_switch_self w who true w.map (getMapOf_eq_some w who o howner honmap)

theorem mapEventsOn_showPhase1 (w : World) (who : Who) (c : Option Coordinate) (o : Owner)
    (howner : (w.ui who).owner = some o) (honmap : o.onMap = true) :
    ((showPhase1 w who c).1.ui who).mapEventsOn = some true := by
  simp only [showPhase1]
  exact ensureOn_mapEventsOn _ who o (by simp [ui_owner_removePrev, howner]) honmap

theorem ui_mapEventsOn_showPhase2 (w : World) (who : Who) (spec : DomSpec) (visible : Bool)
    (who2 : Who) :
    ((showPhase2 w who spec visible).1.ui who2).mapEventsOn = (w.ui who2).mapEventsOn := by
  unfold showPhase2
  by_cases h2 : who2 = who <;>
    simp [ui_me_observer, ui_me_measure, ui_me_setPosition, ui_showStyles,
      collidesRun_fst, h2]

theorem showRun_activates (w : World) (who : Who) (c : Option Coordinate) (o : Owner)
    (howner : (w.ui who).owner = some o) (honmap : o.onMap = true) :
    ((showRun w who c).1.ui who).mapEventsOn = some true := by
  have hm := getMapOf_eq_some w who o howner honmap
  have h1 := mapEventsOn_showPhase1 w who c o howner honmap
  rcases hb : ((showPhase1 w who c).1.ui who).buildOnResult with _ | spec
  · simp [showRun, hm, hb, h1]
  · simp [showRun, hm, hb, ui_mapEventsOn_showPhase2, h1]

theorem switch_then_collides (w : World) (who : Who) (o : Owner)
    (howner : (w.ui who).owner = some o) (honmap : o.onMap = true) :
    ((collidesRun (switchMapEventsRun w who false) who).1.ui who).mapEventsOn = some false := by
  rw [collidesRun_fst]
  exact mapEventsOn_switch_self w who false w.map (getMapOf_eq_some w who o howner honmap)

theorem hideRun_deactivates (w : World) (who : Who) (d : ℕ) (o : Owner)
    (hd : (w.ui who).domRef = some d)
    (howner : (w.ui who).owner = some o) (honmap : o.onMap = true) :
    ((hideRun w who).1.ui who).mapEventsOn = some false := by
  cases who
  all_goals
    simp only [hideRun, hd]
    refine switch_then_collides _ _ o ?_ honmap
    simp [World.ui, World.setUI, World.updDom]
    exact howner

theorem removePrev_deactivates_occupant (w : World) (who occ : Who) (d : ℕ) (dom : Dom)
    (o : Owner) (hs : (w.ui who).opts.single = true) (hslot : w.slot = some d)
    (hdom : w.getDom d = some dom) (htag : dom.uiComponentTag = some occ)
    (hhd : (w.ui who).hideDom = false) (hne : occ ≠ who)
    (howner : (w.ui occ).owner = some o) (honmap : o.onMap = true) :
    ((removePrevDOMRun w who).1.ui occ).mapEventsOn = some false := by
  have hm2 : getMapOf (w.updDom d (fun dm => { dm with attached := false })) occ =
      some (w.updDom d (fun dm => { dm with attached := false })).map :=
    getMapOf_eq_some _ occ o (by simp [howner]) honmap
  have hswitch := mapEventsOn_switch_self _ occ false _ hm2
  unfold removePrevDOMRun
  simp [hs, hslot, hdom, htag, hhd, hne, hswitch]

/-- C4 amended: map subscriptions are activated by show whenever a map is
reachable; hide deactivates them synchronously, before any pending hide
animation timer fires, so during the animated-hide window they are already
inactive; and the show of a singleton peer deactivates the subscriptions of
the evicted occupant. -/
theorem C4_map_events_amended :
    (∀ (w : World) (who : Who) (c : Option Coordinate) (o : Owner),
      (w.ui who).owner = some o → o.onMap = true →
      ((showRun w who c).1.ui who).mapEventsOn = some true)
  ∧ (∀ (w : World) (who : Who) (d : ℕ) (o : Owner),
      (w.ui who).domRef = some d → (w.ui who).owner = some o → o.onMap = true →
      ((hideRun w who).1.ui who).mapEventsOn = some false)
  ∧ (∀ (w : World) (who occ : Who) (d : ℕ) (dom : Dom) (o : Owner),
      (w.ui who).opts.single = true → w.slot = some d → w.getDom d = some dom →
      dom.uiComponentTag = some occ → (w.ui who).hideDom = false → occ ≠ who →
      (w.ui occ).owner = some o → o.onMap = true →
      ((removePrevDOMRun w who).1.ui occ).mapEventsOn = some false) :=
  ⟨fun w who c o h1 h2 => showRun_activates w who c o h1 h2,
   fun w who d o h1 h2 h3 => hideRun_deactivates w who d o h1 h2 h3,
   fun w who occ d dom o h1 h2 h3 h4 h5 h6 h7 h8 =>
     removePrev_deactivates_occupant w who occ d dom o h1 h2 h3 h4 h5 h6 h7 h8⟩

/-- A singleton eviction scenario: the element of overlay A occupies the
class slot of the map and is attached; overlay B shares the map. -/
def w1c : World :=
  { map := cexMap,
    a := { owner := some {}, domRef := some 0, mapEventsOn := some true,
           coordinate := some {} },
    b := { owner := some {}, coordinate := some {}, buildOnResult := some {} },
    doms := [(0, { attached := true, uiComponentTag := some Who.ua })],
    nextDom := 1,
    slot := some 0 }

theorem C4_map_events_amended_witness :
    ((w3.ui Who.ua).owner = some ({} : Owner)
      ∧ ((showRun w3 Who.ua none).1.ui Who.ua).mapEventsOn = some true)
  ∧ ((w4.ui Who.ua).domRef = some 0
      ∧ ((hideRun w4 Who.ua).1.ui Who.ua).mapEventsOn = some false)
  ∧ (w1c.slot = some 0 ∧ Who.ua ≠ Who.ub
      ∧ ((removePrevDOMRun w1c Who.ub).1.ui Who.ua).mapEventsOn = some false) := by
  refine ⟨⟨rfl, C4_map_events_amended.1 w3 Who.ua none {} rfl rfl⟩,
    ⟨rfl, C4_map_events_amended.2.1 w4 Who.ua 0 {} rfl rfl rfl⟩,
    ⟨rfl, by decide, C4_map_events_amended.2.2 w1c Who.ub Who.ua 0
      { attached := true, uiComponentTag := some Who.ua } {} rfl rfl rfl rfl rfl
      (by decide) rfl rfl⟩⟩

@[simp] theorem optmap_ite {α β : Type} (f : α → β) (c : Prop) [Decidable c]
    (x y : Option α) : (ite c x y).map f = ite c (x.map f) (y.map f) :=
  apply_ite (Option.map f) c x y

@[simp] theorem doms_ite (c : Prop) [Decidable c] (x y : World) :
    (ite c x y).doms = ite c x.doms y.doms := apply_ite World.doms c x y

@[simp] theorem listmap_ite {α β : Type} (f : α → β) (c : Prop) [Decidable c]
    (l1 l2 : List α) :
    List.map f (ite c l1 l2) = ite c (List.map f l1) (List.map f l2) :=
  apply_ite (List.map f) c l1 l2

@[simp] theorem lookup_ite {β : Type} (k : ℕ) (c : Prop) [Decidable c]
    (l1 l2 : List (ℕ × β)) :
    List.lookup k (ite c l1 l2) = ite c (List.lookup k l1) (List.lookup k l2) :=
  apply_ite (List.lookup k) c l1 l2

/-- On a map, getPosition returns normally exactly when the getOffset hook
does not produce a nullish offset while the roundPoint option is set. -/
theorem getPosition_safe_ok (opts : Options) (coord : Option Coordinate)
    (own : Option Owner) (hook : Option (Option Pt)) (mm : MapModel)
    (h : opts.roundPoint = true → hook ≠ some none) :
    getPosition opts coord own hook (some mm) =
      Except.ok (getPositionOk opts coord own hook mm) := by
  rcases hook with _ | (_ | o0)
  · simp [getPosition, getPositionOk]
  · by_cases hrp : opts.roundPoint = true
    · exact absurd rfl (h hrp)
    · simp [getPosition, getPositionOk, hrp]
  · simp [getPosition, getPositionOk]

@[simp] theorem coordinate_ite (c : Prop) [Decidable c] (x y : UI) :
    (ite c x y).coordinate = ite c x.coordinate y.coordinate :=
  apply_ite UI.coordinate c x y

@[simp] theorem size_ite (c : Prop) [Decidable c] (x y : UI) :
    (ite c x y).size = ite c x.size y.size := apply_ite UI.size c x y

@[simp] theorem resizeObserver_ite (c : Prop) [Decidable c] (x y : UI) :
    (ite c x y).resizeObserver = ite c x.resizeObserver y.resizeObserver :=
  apply_ite UI.resizeObserver c x y

@[simp] theorem domContentRect_ite (c : Prop) [Decidable c] (x y : UI) :
    (ite c x y).domContentRect = ite c x.domContentRect y.domContentRect :=
  apply_ite UI.domContentRect c x y

@[simp] theorem pos_ite (c : Prop) [Decidable c] (x y : UI) :
    (ite c x y).pos = ite c x.pos y.pos := apply_ite UI.pos c x y

@[simp] theorem sbsc_ite (c : Prop) [Decidable c] (x y : UI) :
    (ite c x y).showBySymbolChange = ite c x.showBySymbolChange y.showBySymbolChange :=
  apply_ite UI.showBySymbolChange c x y

@[simp] theorem hideDomF_ite (c : Prop) [Decidable c] (x y : UI) :
    (ite c x y).hideDom = ite c x.hideDom y.hideDom := apply_ite UI.hideDom c x y

@[simp] theorem buildOnF_ite (c : Prop) [Decidable c] (x y : UI) :
    (ite c x y).buildOnResult = ite c x.buildOnResult y.buildOnResult :=
  apply_ite UI.buildOnResult c x y

@[simp] theorem getOffsetHook_ite (c : Prop) [Decidable c] (x y : UI) :
    (ite c x y).getOffsetHook = ite c x.getOffsetHook y.getOffsetHook :=
  apply_ite UI.getOffsetHook c x y

@[simp] theorem domspec_ite (c : Prop) [Decidable c] (x y : Dom) :
    (ite c x y).spec = ite c x.spec y.spec := apply_ite Dom.spec c x y

@[simp] theorem opacity_ite (c : Prop) [Decidable c] (x y : Dom) :
    (ite c x y).opacity = ite c x.opacity y.opacity := apply_ite Dom.opacity c x y

@[simp] theorem transformS_ite (c : Prop) [Decidable c] (x y : Dom) :
    (ite c x y).transformS = ite c x.transformS y.transformS :=
  apply_ite Dom.transformS c x y

@[simp] theorem transitionS_ite (c : Prop) [Decidable c] (x y : Dom) :
    (ite c x y).transitionS = ite c x.transitionS y.transitionS :=
  apply_ite Dom.transitionS c x y

@[simp] theorem positionS_ite (c : Prop) [Decidable c] (x y : Dom) :
    (ite c x y).positionS = ite c x.positionS y.positionS :=
  apply_ite Dom.positionS c x y

@[simp] theorem eventsProp_ite (c : Prop) [Decidable c] (x y : Dom) :
    (ite c x y).eventsPropagationProp = ite c x.eventsPropagationProp y.eventsPropagationProp :=
  apply_ite Dom.eventsPropagationProp c x y

@[simp] theorem single_ite (c : Prop) [Decidable c] (x y : Options) :
    (ite c x y).single = ite c x.single y.single := apply_ite Options.single c x y

@[simp] theorem autoPanOpt_ite (c : Prop) [Decidable c] (x y : Options) :
    (ite c x y).autoPan = ite c x.autoPan y.autoPan := apply_ite Options.autoPan c x y

@[simp] theorem visible_ite (c : Prop) [Decidable c] (x y : Options) :
    (ite c x y).visible = ite c x.visible y.visible := apply_ite Options.visible c x y

@[simp] theorem animationOpt_ite (c : Prop) [Decidable c] (x y : Options) :
    (ite c x y).animation = ite c x.animation y.animation :=
  apply_ite Options.animation c x y

@[simp] theorem eventsPropagation_ite (c : Prop) [Decidable c] (x y : Options) :
    (ite c x y).eventsPropagation = ite c x.eventsPropagation y.eventsPropagation :=
  apply_ite Options.eventsPropagation c x y

set_option maxHeartbeats 2000000

/-- The eviction scenario for the singleton invariant: the map slot of the
class holds the element of overlay A (tagged with A), and overlay B of the
same class, configured as a singleton, is about to show.  Auto-pan is off:
it runs only after the new element is attached, so it cannot interact with
the eviction order. -/
def evictOpts (o : Options) : Options :=
  { o with single := true, autoPan := false }

/-- Overlay B as it stands before the show call: a singleton of the class,
attached to an owner on the map, with a working buildOn hook. -/
def evictB (uB : UI) (oB : Owner) (sp : DomSpec) : UI :=
  { uB with
    opts := evictOpts uB.opts
    owner := some oB
    showBySymbolChange := false
    hideDom := false
    buildOnResult := some sp }

/-- The element of overlay A occupying the slot, carrying the singleton back
reference to A. -/
def evictDomA (domA : Dom) : Dom :=
  { domA with uiComponentTag := some Who.ua }

def evictWorld (m : MapModel) (a3 ros : Bool) (uA uB : UI) (oB : Owner) (sp : DomSpec)
    (domA : Dom) (rest : List (ℕ × Dom)) (dA nd : ℕ) (tm : List Who) (pt : Option Pt) :
    World :=
  { map := m
    any3d := a3
    resizeObserverSupport := ros
    a := uA
    b := evictB uB oB sp
    doms := (dA, evictDomA domA) :: rest
    nextDom := nd
    slot := some dA
    timers := tm
    panTarget := pt }

/-- C1: when overlay B shows while the element of overlay A occupies the
singleton slot — B being any instance whose getOffset hook does not return
a nullish offset while roundPoint is set, which would make _setPosition
throw — the run completes without error; if A was logically visible the
full notification order is showstart, hide to A, removal of the element
of A, attachment of the element of B (during measuring and for display),
showend, collision registration, so the eviction, the removal and the hide
notification all come before the element of B is attached; the slot then
holds the fresh element of B (tagged with B and attached), the element of A
is detached, and the map subscriptions of A are switched off. -/
theorem C1_singleton_eviction (m : MapModel) (a3 ros : Bool) (uA uB : UI) (oA oB : Owner)
    (sp : DomSpec) (domA : Dom) (rest : List (ℕ × Dom)) (dA nd : ℕ) (tm : List Who)
    (pt : Option Pt) (c : Option Coordinate)
    (hFresh : dA ≠ nd)
    (hOwnA : uA.owner = some oA) (hOnA : oA.onMap = true) (hOnB : oB.onMap = true)
    (hSafe : uB.opts.roundPoint = true → uB.getOffsetHook ≠ some none) :
    (showRun (evictWorld m a3 ros uA uB oB sp domA rest dA nd tm pt) Who.ub c).2.2 = false
  ∧ (uA.opts.visible = true → uA.domRef = some dA → domA.attached = true →
      domA.display ≠ "none" →
      (showRun (evictWorld m a3 ros uA uB oB sp domA rest dA nd tm pt) Who.ub c).2.1 =
        [Ev.showstart Who.ub, Ev.hideEv Who.ua, Ev.domRemoved dA, Ev.domAttached nd,
         Ev.domAttached nd, Ev.showend Who.ub, Ev.collides Who.ub])
  ∧ (uA.opts.visible = false →
      (showRun (evictWorld m a3 ros uA uB oB sp domA rest dA nd tm pt) Who.ub c).2.1 =
        [Ev.showstart Who.ub, Ev.domRemoved dA, Ev.domAttached nd,
         Ev.domAttached nd, Ev.showend Who.ub, Ev.collides Who.ub])
  ∧ (showRun (evictWorld m a3 ros uA uB oB sp domA rest dA nd tm pt) Who.ub c).1.slot =
      some nd
  ∧ (showRun (evictWorld m a3 ros uA uB oB sp domA rest dA nd tm pt) Who.ub c).1.getDom dA =
      some { domA with uiComponentTag := some Who.ua, attached := false }
  ∧ (((showRun (evictWorld m a3 ros uA uB oB sp domA rest dA nd tm pt) Who.ub c).1.getDom
        nd).map Dom.attached) = some true
  ∧ (((showRun (evictWorld m a3 ros uA uB oB sp domA rest dA nd tm pt) Who.ub c).1.getDom
        nd).map Dom.uiComponentTag) = some (some Who.ub)
  ∧ ((showRun (evictWorld m a3 ros uA uB oB sp domA rest dA nd tm pt) Who.ub c).1.ui
        Who.ua).mapEventsOn = some false
  ∧ (uA.opts.visible = true → uA.domRef = some dA → domA.attached = true →
      domA.display ≠ "none" →
      ∃ l2 l3,
        (showRun (evictWorld m a3 ros uA uB oB sp domA rest dA nd tm pt) Who.ub c).2.1 =
          [Ev.showstart Who.ub, Ev.hideEv Who.ua] ++ l2 ++ [Ev.domAttached nd] ++ l3) := by
  have hbe : (dA == nd) = false := by simp [hFresh]
  have hbe2 : (nd == dA) = false := by simp [Ne.symm hFresh]
  have hgp : ∀ (ox : Options) (cx : Option Coordinate) (ownx : Option Owner) (mx : MapModel),
      ox.roundPoint = uB.opts.roundPoint →
      getPosition ox cx ownx uB.getOffsetHook (some mx) =
        Except.ok (getPositionOk ox cx ownx uB.getOffsetHook mx) := by
    intro ox cx ownx mx hx
    exact getPosition_safe_ok ox cx ownx uB.getOffsetHook mx
      (fun hr => hSafe (hx.symm.trans hr))
  refine ⟨?_, ?_, ?_, ?_, ?_, ?_, ?_, ?_, ?_⟩
  · simp [showRun, showPhase1, showPhase2, removePrevDOMRun, switchMapEventsRun,
      observerDomSizeRun, measureSizeRun, setPositionRun, showStylesRun, autoPanRun,
      collidesRun, getMapOf, isVisibleUI, evictWorld, evictB, evictOpts, evictDomA, World.ui, World.setUI, World.updDom,
      World.getDom, World.setSlot, World.allocDom, List.lookup, lookup_cons_self,
      lookup_cons_ne, hOwnA, hOnA, hOnB, hFresh, Ne.symm hFresh, hbe, hbe2, hgp]
  · intro hv1 hv2 hv3 hv4
    simp [showRun, showPhase1, showPhase2, removePrevDOMRun, switchMapEventsRun,
      observerDomSizeRun, measureSizeRun, setPositionRun, showStylesRun, autoPanRun,
      collidesRun, getMapOf, isVisibleUI, evictWorld, evictB, evictOpts, evictDomA, World.ui, World.setUI, World.updDom,
      World.getDom, World.setSlot, World.allocDom, List.lookup, lookup_cons_self,
      lookup_cons_ne, hOwnA, hOnA, hOnB, hFresh, Ne.symm hFresh, hbe, hbe2, hgp, hv1, hv2, hv3, hv4]
  · intro hv0
    simp [showRun, showPhase1, showPhase2, removePrevDOMRun, switchMapEventsRun,
      observerDomSizeRun, measureSizeRun, setPositionRun, showStylesRun, autoPanRun,
      collidesRun, getMapOf, isVisibleUI, evictWorld, evictB, evictOpts, evictDomA, World.ui, World.setUI, World.updDom,
      World.getDom, World.setSlot, World.allocDom, List.lookup, lookup_cons_self,
      lookup_cons_ne, hOwnA, hOnA, hOnB, hFresh, Ne.symm hFresh, hbe, hbe2, hgp, hv0]
  · simp [showRun, showPhase1, showPhase2, removePrevDOMRun, switchMapEventsRun,
      observerDomSizeRun, measureSizeRun, setPositionRun, showStylesRun, autoPanRun,
      collidesRun, getMapOf, isVisibleUI, evictWorld, evictB, evictOpts, evictDomA, World.ui, World.setUI, World.updDom,
      World.getDom, World.setSlot, World.allocDom, List.lookup, lookup_cons_self,
      lookup_cons_ne, hOwnA, hOnA, hOnB, hFresh, Ne.symm hFresh, hbe, hbe2, hgp]
  · simp [showRun, showPhase1, showPhase2, removePrevDOMRun, switchMapEventsRun,
      observerDomSizeRun, measureSizeRun, setPositionRun, showStylesRun, autoPanRun,
      collidesRun, getMapOf, isVisibleUI, evictWorld, evictB, evictOpts, evictDomA, World.ui, World.setUI, World.updDom,
      World.getDom, World.setSlot, World.allocDom, List.lookup, lookup_cons_self,
      lookup_cons_ne, hOwnA, hOnA, hOnB, hFresh, Ne.symm hFresh, hbe, hbe2, hgp]
  · simp [showRun, showPhase1, showPhase2, removePrevDOMRun, switchMapEventsRun,
      observerDomSizeRun, measureSizeRun, setPositionRun, showStylesRun, autoPanRun,
      collidesRun, getMapOf, isVisibleUI, evictWorld, evictB, evictOpts, evictDomA, World.ui, World.setUI, World.updDom,
      World.getDom, World.setSlot, World.allocDom, List.lookup, lookup_cons_self,
      lookup_cons_ne, hOwnA, hOnA, hOnB, hFresh, Ne.symm hFresh, hbe, hbe2, hgp]
  · simp [showRun, showPhase1, showPhase2, removePrevDOMRun, switchMapEventsRun,
      observerDomSizeRun, measureSizeRun, setPositionRun, showStylesRun, autoPanRun,
      collidesRun, getMapOf, isVisibleUI, evictWorld, evictB, evictOpts, evictDomA, World.ui, World.setUI, World.updDom,
      World.getDom, World.setSlot, World.allocDom, List.lookup, lookup_cons_self,
      lookup_cons_ne, hOwnA, hOnA, hOnB, hFresh, Ne.symm hFresh, hbe, hbe2, hgp]
  · simp [showRun, showPhase1, showPhase2, removePrevDOMRun, switchMapEventsRun,
      observerDomSizeRun, measureSizeRun, setPositionRun, showStylesRun, autoPanRun,
      collidesRun, getMapOf, isVisibleUI, evictWorld, evictB, evictOpts, evictDomA, World.ui, World.setUI, World.updDom,
      World.getDom, World.setSlot, World.allocDom, List.lookup, lookup_cons_self,
      lookup_cons_ne, hOwnA, hOnA, hOnB, hFresh, Ne.symm hFresh, hbe, hbe2, hgp]
  · intro hv1 hv2 hv3 hv4
    refine ⟨[Ev.domRemoved dA],
      [Ev.domAttached nd, Ev.showend Who.ub, Ev.collides Who.ub], ?_⟩
    simp [showRun, showPhase1, showPhase2, removePrevDOMRun, switchMapEventsRun,
      observerDomSizeRun, measureSizeRun, setPositionRun, showStylesRun, autoPanRun,
      collidesRun, getMapOf, isVisibleUI, evictWorld, evictB, evictOpts, evictDomA, World.ui, World.setUI, World.updDom,
      World.getDom, World.setSlot, World.allocDom, List.lookup, lookup_cons_self,
      lookup_cons_ne, hOwnA, hOnA, hOnB, hFresh, Ne.symm hFresh, hbe, hbe2, hgp, hv1, hv2, hv3, hv4]

/-- Overlay A of the eviction witness: attached to an owner on the map, its
element in the slot. -/
def uA1 : UI := { owner := some cexOwner, domRef := some 0 }

/-- The concrete eviction world of the witness: the element of A occupies
slot 0, B is a fresh default instance of the class, the next element gets
number 1. -/
def w1e : World :=
  evictWorld cexMap false false uA1 {} cexOwner {} { attached := true } [] 0 1 [] none

theorem C1_singleton_eviction_witness :
    ((0 : ℕ) ≠ 1 ∧ uA1.owner = some cexOwner ∧ cexOwner.onMap = true
      ∧ (({} : UI).opts.roundPoint = true → ({} : UI).getOffsetHook ≠ some none)
      ∧ uA1.opts.visible = true ∧ uA1.domRef = some 0
      ∧ ({ attached := true } : Dom).attached = true
      ∧ ({ attached := true } : Dom).display ≠ "none")
  ∧ (showRun w1e Who.ub none).2.2 = false
  ∧ (showRun w1e Who.ub none).2.1 =
      [Ev.showstart Who.ub, Ev.hideEv Who.ua, Ev.domRemoved 0, Ev.domAttached 1,
       Ev.domAttached 1, Ev.showend Who.ub, Ev.collides Who.ub]
  ∧ (showRun w1e Who.ub none).1.slot = some 1
  ∧ (((showRun w1e Who.ub none).1.getDom 1).map Dom.uiComponentTag) = some (some Who.ub)
  ∧ ((showRun w1e Who.ub none).1.ui Who.ua).mapEventsOn = some false := by
  have H := C1_singleton_eviction cexMap false false uA1 {} cexOwner cexOwner {}
    { attached := true } [] 0 1 [] none none (by decide) rfl rfl rfl
    (fun h => absurd h (by decide))
  exact ⟨⟨by decide, rfl, rfl, fun h => absurd h (by decide), rfl, rfl, rfl, by decide⟩, H.1,
    H.2.1 rfl rfl rfl (by decide), H.2.2.2.1, H.2.2.2.2.2.2.1, H.2.2.2.2.2.2.2.1⟩
